import Mathlib

set_option maxHeartbeats 1000000

/-!
Verification development for the RISC-V assembler in `Assembler/assembler.c`
and `Assembler/assembler_main.c`.

The C sources are shallowly embedded below.  C strings become Lean `String`
(lists of characters); the C `unsigned int` machine word becomes `Nat` with
explicit reduction modulo `2 ^ 32` at the one place where a C shift overflows
32 bits; C `int` values that can go negative (`get_register_number`,
`find_label_address`, immediates) become `Int`.  The global mutable state of
the C program (`labelTable`, `labelCount`, `instruction_count`,
`instruction_count2`) is threaded explicitly.
-/

namespace RiscvAsm

/-- The whitespace set of C `isspace`, used by `sscanf` `%s` to separate
tokens and skipped by `atoi` and `strtol`. -/
def isWS (c : Char) : Bool :=
  c = ' ' || c = '\t' || c = '\n' || c = '\x0b' || c = '\x0c' || c = '\r'

/-- Model of `removeComment` (assembler.c:215): everything from the first
`#` on is cut off. -/
def removeComment (s : String) : String :=
  String.mk (s.data.takeWhile (fun c => c ≠ '#'))

/-- Model of `replaceCommas` (assembler.c:157): every comma becomes a space. -/
def replaceCommas (s : String) : String :=
  String.mk (s.data.map (fun c => if c = ',' then ' ' else c))

/-- Model of `splitString` (assembler.c:225): split at the first `:`.  If no
colon is present the whole string goes to the first component and the second
component is empty. -/
def splitString (s : String) : String × String :=
  let pre := s.data.takeWhile (fun c => c ≠ ':')
  if pre.length = s.data.length then (s, "")
  else (String.mk pre, String.mk (s.data.drop (pre.length + 1)))

/-- Model of `remove_colon` (assembler.c:55): drop one trailing colon. -/
def remove_colon (s : String) : String :=
  match s.data.getLast? with
  | some ':' => String.mk s.data.dropLast
  | _ => s

/-- Split a character list into maximal runs of non-whitespace characters,
accumulating the current run in reverse.  This is the token stream that
consecutive `sscanf` `%s` conversions read. -/
def wordsAux : List Char → List Char → List String
  | [], acc => if acc.isEmpty then [] else [String.mk acc.reverse]
  | c :: rest, acc =>
    if isWS c then
      if acc.isEmpty then wordsAux rest []
      else String.mk acc.reverse :: wordsAux rest []
    else wordsAux rest (c :: acc)

/-- All whitespace-separated tokens of a string. -/
def tokensOf (s : String) : List String := wordsAux s.data []

/-- The result of `sscanf(s, "%s %s %s %s", opcode, rd, rs1, rs2)`: the first
four tokens; the `sscanf` return value is the length of this list (the C code
never distinguishes the `EOF` return from a zero count because every branch
tests for a count of 1 to 4). -/
def tokens4 (s : String) : List String := (tokensOf s).take 4

/-- Character is a decimal digit. -/
def isDigitC (c : Char) : Bool := '0' ≤ c && c ≤ '9'

/-- Accumulate decimal digits, stopping at the first non-digit, as C `atoi`
and base-10 `strtol` do. -/
def decValAux : List Char → Nat → Nat
  | [], a => a
  | c :: r, a => if isDigitC c then decValAux r (a * 10 + (c.toNat - 48)) else a

/-- Model of C `atoi` (also `strtol(s, NULL, 10)`): skip whitespace, read an
optional sign, then a maximal run of decimal digits (value 0 if none). -/
def atoi (s : String) : Int :=
  match s.data.dropWhile isWS with
  | '-' :: r => -(decValAux r 0 : Int)
  | '+' :: r => (decValAux r 0 : Int)
  | r => (decValAux r 0 : Int)

/-- Character is a hexadecimal digit. -/
def isHexDigitC (c : Char) : Bool :=
  isDigitC c || ('a' ≤ c && c ≤ 'f') || ('A' ≤ c && c ≤ 'F')

/-- Value of a hexadecimal digit character. -/
def hexCharVal (c : Char) : Nat :=
  if isDigitC c then c.toNat - 48
  else if 'a' ≤ c && c ≤ 'f' then c.toNat - 87
  else if 'A' ≤ c && c ≤ 'F' then c.toNat - 55
  else 0

/-- Accumulate hexadecimal digits, stopping at the first non-digit. -/
def hexValAux : List Char → Nat → Nat
  | [], a => a
  | c :: r, a => if isHexDigitC c then hexValAux r (a * 16 + hexCharVal c) else a

/-- Drop a `0x` / `0X` prefix, as base-16 `strtol` does after the sign. -/
def dropHexMark : List Char → List Char
  | '0' :: 'x' :: r => r
  | '0' :: 'X' :: r => r
  | r => r

/-- Model of `strtol(s, NULL, 16)`: skip whitespace, optional sign, optional
`0x` mark, then a maximal run of hex digits. -/
def strtol16 (s : String) : Int :=
  match s.data.dropWhile isWS with
  | '-' :: r => -(hexValAux (dropHexMark r) 0 : Int)
  | '+' :: r => (hexValAux (dropHexMark r) 0 : Int)
  | r => (hexValAux (dropHexMark r) 0 : Int)

/-- C `strncmp(s, "0x", 2) == 0`. -/
def startsWith0x (s : String) : Bool :=
  match s.data with
  | '0' :: 'x' :: _ => true
  | _ => false

/-- Model of `convertToDecimal` (assembler.c:327): base 16 when the literal
starts with `0x`, base 10 otherwise. -/
def convertToDecimal (s : String) : Int :=
  if startsWith0x s then strtol16 s else atoi s

/-- Model of `get_register_number` (assembler.c:75): the chain of `strcmp`
tests over numeric and ABI names, then the `strncmp`/`atoi` fallback for
strings starting with `x`, and `-1` otherwise. -/
def get_register_number (reg : String) : Int :=
  if reg = "x0" ∨ reg = "zero" then 0
  else if reg = "x1" ∨ reg = "ra" then 1
  else if reg = "x2" ∨ reg = "sp" then 2
  else if reg = "x3" ∨ reg = "gp" then 3
  else if reg = "x4" ∨ reg = "tp" then 4
  else if reg = "x5" ∨ reg = "t0" then 5
  else if reg = "x6" ∨ reg = "t1" then 6
  else if reg = "x7" ∨ reg = "t2" then 7
  else if reg = "x8" ∨ reg = "s0" then 8
  else if reg = "x9" ∨ reg = "s1" then 9
  else if reg = "x10" ∨ reg = "a0" then 10
  else if reg = "x11" ∨ reg = "a1" then 11
  else if reg = "x12" ∨ reg = "a2" then 12
  else if reg = "x13" ∨ reg = "a3" then 13
  else if reg = "x14" ∨ reg = "a4" then 14
  else if reg = "x15" ∨ reg = "a5" then 15
  else if reg = "x16" ∨ reg = "a6" then 16
  else if reg = "x17" ∨ reg = "a7" then 17
  else if reg = "x18" ∨ reg = "s2" then 18
  else if reg = "x19" ∨ reg = "s3" then 19
  else if reg = "x20" ∨ reg = "s4" then 20
  else if reg = "x21" ∨ reg = "s5" then 21
  else if reg = "x22" ∨ reg = "s6" then 22
  else if reg = "x23" ∨ reg = "s7" then 23
  else if reg = "x24" ∨ reg = "s8" then 24
  else if reg = "x25" ∨ reg = "s9" then 25
  else if reg = "x26" ∨ reg = "s10" then 26
  else if reg = "x27" ∨ reg = "s11" then 27
  else if reg = "x28" ∨ reg = "t3" then 28
  else if reg = "x29" ∨ reg = "t4" then 29
  else if reg = "x30" ∨ reg = "t5" then 30
  else if reg = "x31" ∨ reg = "t6" then 31
  else
    match reg.data with
    | 'x' :: rest =>
      if 0 ≤ atoi (String.mk rest) ∧ atoi (String.mk rest) ≤ 31 then atoi (String.mk rest)
      else -1
    | _ => -1

/-- C conversion of an `int` to `unsigned char` (the declared type of
`rd_num`, `rs1_num`, `rs2_num`): reduction modulo 256; `-1` becomes 255. -/
def ui8 (x : Int) : Nat := (x % 256).toNat

/-- The 32-bit two's-complement image of a signed `int`, as produced when the
C code applies bitwise masks to the signed `imm`. -/
def ui32 (x : Int) : Nat := (x % 4294967296).toNat

/-- Reduction modulo `2 ^ 32`: the effect of storing or shifting a value in a
32-bit register.  Needed where a C shift pushes bits beyond bit 31. -/
def u32 (n : Nat) : Nat := n % 4294967296

/-- The label table: `labelTable` / `labelCount` (assembler.c:16), a list of
(name, address) pairs in insertion order. -/
abbrev LabelTable := List (String × Nat)

/-- Model of `find_label_address` (assembler.c:39): linear scan in insertion
order, first match wins, `-1` if the label is absent. -/
def find_label_address (tbl : LabelTable) (label : String) : Int :=
  match tbl with
  | [] => -1
  | (l, a) :: rest => if l = label then (a : Int) else find_label_address rest label

/-- R-type field packing shared verbatim by every R-type branch of
`assemble_instruction` (e.g. assembler.c:358): opcode, rd, funct3, rs1, rs2,
funct7.  `mv` also uses this shape with the I-type opcode `0b0010011` and
`rs2 = x0`. -/
def encR (op f3 f7 rdn rs1n rs2n : Nat) : Nat :=
  op ||| ((rdn &&& 0x1F) <<< 7) ||| (f3 <<< 12) ||| ((rs1n &&& 0x1F) <<< 15) |||
    ((rs2n &&& 0x1F) <<< 20) ||| (f7 <<< 25)

/-- I-type field packing shared by the `addi`-family, loads, `jalr`, `li`,
`jr` and `ret` branches: opcode, rd, funct3, rs1, and the low 12 bits of the
immediate in bits 31..20. -/
def encI (op f3 rdn rs1n : Nat) (imm : Int) : Nat :=
  op ||| ((rdn &&& 0x1F) <<< 7) ||| (f3 <<< 12) ||| ((rs1n &&& 0x1F) <<< 15) |||
    ((ui32 imm &&& 0xFFF) <<< 20)

/-- The shift-immediate variants additionally OR a funct7 value into bits
31..25 (assembler.c:500, 545, 557). -/
def encIsh (op f3 f7 rdn rs1n : Nat) (imm : Int) : Nat :=
  encI op f3 rdn rs1n imm ||| (f7 <<< 25)

/-- B-type packing as written in the branch arms (assembler.c:592-721).  The
immediate is the signed byte offset already shifted left by 2; `sh12` is the
shift applied to `imm & 0x1000`: every branch uses 20 (pushing offset bit 12
to bit 32, where it is lost in 32-bit arithmetic) except `blt`, which uses
19. -/
def encB (f3 rs1n rs2n : Nat) (imm : Int) (sh12 : Nat) : Nat :=
  0x63 ||| ((ui32 imm &&& 0x800) >>> 4) ||| ((ui32 imm &&& 0x1E) <<< 7) |||
    (f3 <<< 12) ||| ((rs1n &&& 0x1F) <<< 15) ||| ((rs2n &&& 0x1F) <<< 20) |||
    ((ui32 imm &&& 0x7E0) <<< 20) ||| u32 ((ui32 imm &&& 0x1000) <<< sh12)

/-- S-type packing (assembler.c:810-863).  The register parsed from the first
operand (`rd` in the source text) lands in the rs2 slot, bits 24..20. -/
def encS (f3 rs1n rs2slot : Nat) (imm : Int) : Nat :=
  0x23 ||| ((ui32 imm &&& 0x1F) <<< 7) ||| (f3 <<< 12) ||| ((rs1n &&& 0x1F) <<< 15) |||
    ((rs2slot &&& 0x1F) <<< 20) ||| ((ui32 imm &&& 0xFE0) <<< 20)

/-- U-type packing for `auipc` and `lui` (assembler.c:864-879). -/
def encU (op rdn : Nat) (imm : Int) : Nat :=
  op ||| ((rdn &&& 0x1F) <<< 7) ||| ((ui32 imm &&& 0xFFFFF) <<< 12)

/-- J-type packing for `jal` and `j` (assembler.c:880-892, 920-932). -/
def encJ (rdn : Nat) (imm : Int) : Nat :=
  0x6F ||| ((rdn &&& 0x1F) <<< 7) ||| (ui32 imm &&& 0xFF000) |||
    ((ui32 imm &&& 0x800) <<< 9) ||| ((ui32 imm &&& 0x7FE) <<< 20) |||
    ((ui32 imm &&& 0x100000) <<< 11)

/-- Model of `separateImmediate` (assembler.c:180): the part of a memory
operand before the opening parenthesis. -/
def separateImmediate (s : String) : String :=
  String.mk (s.data.takeWhile (fun c => c ≠ '('))

/-- Walk of `separate_rs1` (assembler.c:196): every character up to and
including the opening parenthesis becomes a space; later characters are kept
(the `str[i] == ')'` arm of the C code is a comparison, not an assignment,
so the closing parenthesis survives). -/
def sepRs1Aux : List Char → Bool → List Char
  | [], _ => []
  | c :: r, sig =>
    if c = '(' then ' ' :: sepRs1Aux r true
    else if sig = false then ' ' :: sepRs1Aux r false
    else c :: sepRs1Aux r sig

/-- Model of `separate_rs1` on a string. -/
def separate_rs1 (s : String) : String := String.mk (sepRs1Aux s.data false)

/-- Model of `removeBracket` (assembler.c:167): the first `)` terminates the
string and every earlier `(` becomes a space. -/
def removeBracket (s : String) : String :=
  String.mk ((s.data.takeWhile (fun c => c ≠ ')')).map (fun c => if c = '(' then ' ' else c))

/-- `sscanf(buf, "%s", buf)`: the first token replaces the buffer; on a
whitespace-only buffer `sscanf` assigns nothing and the buffer is kept. -/
def firstTokenKeep (s : String) : String :=
  match tokensOf s with
  | [] => s
  | t :: _ => t

/-- The memory-operand parse performed by every load and store branch
(e.g. assembler.c:727-734): the immediate before `(` and the base-register
token between the parentheses. -/
def parseMem (t : String) : Int × String :=
  let imm := convertToDecimal (separateImmediate t)
  let r := removeBracket (firstTokenKeep (separate_rs1 t))
  (imm, r)

/-- Dispatch core of `assemble_instruction` (assembler.c:340): given the
label table, the current pass-two counter and the (up to four) parsed tokens,
return the updated counter and the machine word.  Lines matching no branch
leave the counter alone and return the word 0. -/
def asmTokens (tbl : LabelTable) (c2 : Nat) (ts : List String) : Nat × Nat :=
  if ts.length = 4 then
    if ts.getD 0 "" = "add" then
      (c2 + 1, encR 0x33 0 0 (ui8 (get_register_number (ts.getD 1 ""))) (ui8 (get_register_number (ts.getD 2 ""))) (ui8 (get_register_number (ts.getD 3 ""))))
    else if ts.getD 0 "" = "sub" then
      (c2 + 1, encR 0x33 0 0x20 (ui8 (get_register_number (ts.getD 1 ""))) (ui8 (get_register_number (ts.getD 2 ""))) (ui8 (get_register_number (ts.getD 3 ""))))
    else if ts.getD 0 "" = "or" then
      (c2 + 1, encR 0x33 6 0 (ui8 (get_register_number (ts.getD 1 ""))) (ui8 (get_register_number (ts.getD 2 ""))) (ui8 (get_register_number (ts.getD 3 ""))))
    else if ts.getD 0 "" = "and" then
      (c2 + 1, encR 0x33 7 0 (ui8 (get_register_number (ts.getD 1 ""))) (ui8 (get_register_number (ts.getD 2 ""))) (ui8 (get_register_number (ts.getD 3 ""))))
    else if ts.getD 0 "" = "xor" then
      (c2 + 1, encR 0x33 4 0 (ui8 (get_register_number (ts.getD 1 ""))) (ui8 (get_register_number (ts.getD 2 ""))) (ui8 (get_register_number (ts.getD 3 ""))))
    else if ts.getD 0 "" = "sll" then
      (c2 + 1, encR 0x33 1 0 (ui8 (get_register_number (ts.getD 1 ""))) (ui8 (get_register_number (ts.getD 2 ""))) (ui8 (get_register_number (ts.getD 3 ""))))
    else if ts.getD 0 "" = "srl" then
      (c2 + 1, encR 0x33 5 0 (ui8 (get_register_number (ts.getD 1 ""))) (ui8 (get_register_number (ts.getD 2 ""))) (ui8 (get_register_number (ts.getD 3 ""))))
    else if ts.getD 0 "" = "sra" then
      (c2 + 1, encR 0x33 5 0x20 (ui8 (get_register_number (ts.getD 1 ""))) (ui8 (get_register_number (ts.getD 2 ""))) (ui8 (get_register_number (ts.getD 3 ""))))
    else if ts.getD 0 "" = "slt" then
      (c2 + 1, encR 0x33 2 0 (ui8 (get_register_number (ts.getD 1 ""))) (ui8 (get_register_number (ts.getD 2 ""))) (ui8 (get_register_number (ts.getD 3 ""))))
    else if ts.getD 0 "" = "sltu" then
      (c2 + 1, encR 0x33 3 0 (ui8 (get_register_number (ts.getD 1 ""))) (ui8 (get_register_number (ts.getD 2 ""))) (ui8 (get_register_number (ts.getD 3 ""))))
    else if ts.getD 0 "" = "addi" then
      (c2 + 1, encI 0x13 0 (ui8 (get_register_number (ts.getD 1 ""))) (ui8 (get_register_number (ts.getD 2 ""))) (convertToDecimal (ts.getD 3 "")))
    else if ts.getD 0 "" = "slli" then
      (c2 + 1, encIsh 0x13 1 0 (ui8 (get_register_number (ts.getD 1 ""))) (ui8 (get_register_number (ts.getD 2 ""))) (convertToDecimal (ts.getD 3 "")))
    else if ts.getD 0 "" = "slti" then
      (c2 + 1, encI 0x13 2 (ui8 (get_register_number (ts.getD 1 ""))) (ui8 (get_register_number (ts.getD 2 ""))) (convertToDecimal (ts.getD 3 "")))
    else if ts.getD 0 "" = "sltiu" then
      (c2 + 1, encI 0x13 3 (ui8 (get_register_number (ts.getD 1 ""))) (ui8 (get_register_number (ts.getD 2 ""))) (convertToDecimal (ts.getD 3 "")))
    else if ts.getD 0 "" = "xori" then
      (c2 + 1, encI 0x13 4 (ui8 (get_register_number (ts.getD 1 ""))) (ui8 (get_register_number (ts.getD 2 ""))) (convertToDecimal (ts.getD 3 "")))
    else if ts.getD 0 "" = "srli" then
      (c2 + 1, encIsh 0x13 5 0 (ui8 (get_register_number (ts.getD 1 ""))) (ui8 (get_register_number (ts.getD 2 ""))) (convertToDecimal (ts.getD 3 "")))
    else if ts.getD 0 "" = "srai" then
      (c2 + 1, encIsh 0x13 5 0x20 (ui8 (get_register_number (ts.getD 1 ""))) (ui8 (get_register_number (ts.getD 2 ""))) (convertToDecimal (ts.getD 3 "")))
    else if ts.getD 0 "" = "ori" then
      (c2 + 1, encI 0x13 6 (ui8 (get_register_number (ts.getD 1 ""))) (ui8 (get_register_number (ts.getD 2 ""))) (convertToDecimal (ts.getD 3 "")))
    else if ts.getD 0 "" = "andi" then
      (c2 + 1, encI 0x13 7 (ui8 (get_register_number (ts.getD 1 ""))) (ui8 (get_register_number (ts.getD 2 ""))) (convertToDecimal (ts.getD 3 "")))
    else if ts.getD 0 "" = "jalr" then
      (c2 + 1, encI 0x67 0 (ui8 (get_register_number (ts.getD 1 ""))) (ui8 (get_register_number (ts.getD 2 ""))) (convertToDecimal (ts.getD 3 "")))
    else if ts.getD 0 "" = "beq" then
      (c2 + 1, encB 0 (ui8 (get_register_number (ts.getD 1 ""))) (ui8 (get_register_number (ts.getD 2 ""))) ((find_label_address tbl (ts.getD 3 "") - (c2 + 1)) * 4) 20)
    else if ts.getD 0 "" = "bne" then
      (c2 + 1, encB 1 (ui8 (get_register_number (ts.getD 1 ""))) (ui8 (get_register_number (ts.getD 2 ""))) ((find_label_address tbl (ts.getD 3 "") - (c2 + 1)) * 4) 20)
    else if ts.getD 0 "" = "blt" then
      (c2 + 1, encB 4 (ui8 (get_register_number (ts.getD 1 ""))) (ui8 (get_register_number (ts.getD 2 ""))) ((find_label_address tbl (ts.getD 3 "") - (c2 + 1)) * 4) 19)
    else if ts.getD 0 "" = "bgt" then
      (c2 + 1, encB 4 (ui8 (get_register_number (ts.getD 2 ""))) (ui8 (get_register_number (ts.getD 1 ""))) ((find_label_address tbl (ts.getD 3 "") - (c2 + 1)) * 4) 20)
    else if ts.getD 0 "" = "bge" then
      (c2 + 1, encB 5 (ui8 (get_register_number (ts.getD 1 ""))) (ui8 (get_register_number (ts.getD 2 ""))) ((find_label_address tbl (ts.getD 3 "") - (c2 + 1)) * 4) 20)
    else if ts.getD 0 "" = "ble" then
      (c2 + 1, encB 5 (ui8 (get_register_number (ts.getD 2 ""))) (ui8 (get_register_number (ts.getD 1 ""))) ((find_label_address tbl (ts.getD 3 "") - (c2 + 1)) * 4) 20)
    else if ts.getD 0 "" = "bltu" then
      (c2 + 1, encB 6 (ui8 (get_register_number (ts.getD 1 ""))) (ui8 (get_register_number (ts.getD 2 ""))) ((find_label_address tbl (ts.getD 3 "") - (c2 + 1)) * 4) 20)
    else if ts.getD 0 "" = "bgeu" then
      (c2 + 1, encB 7 (ui8 (get_register_number (ts.getD 1 ""))) (ui8 (get_register_number (ts.getD 2 ""))) ((find_label_address tbl (ts.getD 3 "") - (c2 + 1)) * 4) 20)
    else (c2, 0)
  else if ts.length = 3 then
    if ts.getD 0 "" = "lb" then
      (c2 + 1, encI 0x03 0 (ui8 (get_register_number (ts.getD 1 ""))) (ui8 (get_register_number (parseMem (ts.getD 2 "")).2)) (parseMem (ts.getD 2 "")).1)
    else if ts.getD 0 "" = "lh" then
      (c2 + 1, encI 0x03 1 (ui8 (get_register_number (ts.getD 1 ""))) (ui8 (get_register_number (parseMem (ts.getD 2 "")).2)) (parseMem (ts.getD 2 "")).1)
    else if ts.getD 0 "" = "lw" then
      (c2 + 1, encI 0x03 2 (ui8 (get_register_number (ts.getD 1 ""))) (ui8 (get_register_number (parseMem (ts.getD 2 "")).2)) (parseMem (ts.getD 2 "")).1)
    else if ts.getD 0 "" = "lbu" then
      (c2 + 1, encI 0x03 4 (ui8 (get_register_number (ts.getD 1 ""))) (ui8 (get_register_number (parseMem (ts.getD 2 "")).2)) (parseMem (ts.getD 2 "")).1)
    else if ts.getD 0 "" = "lhu" then
      (c2 + 1, encI 0x03 5 (ui8 (get_register_number (ts.getD 1 ""))) (ui8 (get_register_number (parseMem (ts.getD 2 "")).2)) (parseMem (ts.getD 2 "")).1)
    else if ts.getD 0 "" = "sb" then
      (c2 + 1, encS 0 (ui8 (get_register_number (parseMem (ts.getD 2 "")).2)) (ui8 (get_register_number (ts.getD 1 ""))) (parseMem (ts.getD 2 "")).1)
    else if ts.getD 0 "" = "sh" then
      (c2 + 1, encS 1 (ui8 (get_register_number (parseMem (ts.getD 2 "")).2)) (ui8 (get_register_number (ts.getD 1 ""))) (parseMem (ts.getD 2 "")).1)
    else if ts.getD 0 "" = "sw" then
      (c2 + 1, encS 2 (ui8 (get_register_number (parseMem (ts.getD 2 "")).2)) (ui8 (get_register_number (ts.getD 1 ""))) (parseMem (ts.getD 2 "")).1)
    else if ts.getD 0 "" = "auipc" then
      (c2 + 1, encU 0x17 (ui8 (get_register_number (ts.getD 1 ""))) (convertToDecimal (ts.getD 2 "")))
    else if ts.getD 0 "" = "lui" then
      (c2 + 1, encU 0x37 (ui8 (get_register_number (ts.getD 1 ""))) (convertToDecimal (ts.getD 2 "")))
    else if ts.getD 0 "" = "jal" then
      (c2 + 1, encJ (ui8 (get_register_number (ts.getD 1 ""))) ((find_label_address tbl (ts.getD 2 "") - (c2 + 1)) * 4))
    else if ts.getD 0 "" = "li" then
      (c2 + 1, encI 0x13 0 (ui8 (get_register_number (ts.getD 1 ""))) (ui8 (get_register_number "x0")) (convertToDecimal (ts.getD 2 "")))
    else if ts.getD 0 "" = "mv" then
      (c2 + 1, encR 0x13 0 0 (ui8 (get_register_number (ts.getD 1 ""))) (ui8 (get_register_number (ts.getD 2 ""))) (ui8 (get_register_number "x0")))
    else (c2, 0)
  else if ts.length = 2 then
    if ts.getD 0 "" = "j" then
      (c2 + 1, encJ (ui8 (get_register_number "x0")) ((find_label_address tbl (ts.getD 1 "") - (c2 + 1)) * 4))
    else if ts.getD 0 "" = "jr" then
      (c2 + 1, encI 0x67 0 (ui8 (get_register_number "x0")) (ui8 (get_register_number (ts.getD 1 ""))) 0)
    else (c2, 0)
  else if ts.length = 1 then
    if ts.getD 0 "" = "ret" then
      (c2 + 1, encI 0x67 0 (ui8 (get_register_number "x0")) (ui8 (get_register_number "ra")) 0)
    else (c2, 0)
  else (c2, 0)

/-- Model of `assemble_instruction` (assembler.c:340) on one normalised line:
parse up to four tokens, and when the line contains a colon with a non-empty
remainder, re-parse that remainder, exactly as the C function re-runs
`sscanf` after `splitString`. -/
def assemble_instruction (tbl : LabelTable) (c2 : Nat) (s : String) : Nat × Nat :=
  if (splitString s).2 ≠ "" then asmTokens tbl c2 (tokens4 (splitString s).2)
  else asmTokens tbl c2 (tokens4 s)

/-- The mnemonics the `count == 4` arm of `first_pass` accepts as R-type. -/
def rList : List String :=
  ["add", "sub", "or", "and", "xor", "sll", "srl", "sra", "slt", "sltu"]

/-- The mnemonics the `count == 4` arm of `first_pass` accepts as I-type. -/
def iList : List String :=
  ["addi", "slli", "slti", "sltiu", "xori", "srli", "srai", "ori", "andi"]

/-- The jalr/branch mnemonics of the `count == 4` arm of `first_pass`. -/
def bList : List String :=
  ["jalr", "beq", "bne", "blt", "bge", "bltu", "bgeu", "bgt", "ble"]

/-- The memory mnemonics of the `count == 3` arm of `first_pass`. -/
def memList : List String :=
  ["lb", "lh", "lw", "lbu", "lhu", "sb", "sh", "sw"]

/-- The upper-immediate / jump mnemonics of the `count == 3` arm. -/
def ujList : List String := ["auipc", "lui", "jal"]

/-- The two-register pseudo mnemonics of the `count == 3` arm. -/
def mvliList : List String := ["mv", "li"]

/-- Counter update of `first_pass` (assembler.c:276-323): one increment per
recognised mnemonic with the matching token count. -/
def fpTokens (ts : List String) (c : Nat) : Nat :=
  if ts.length = 4 then
    if ts.getD 0 "" ∈ rList then c + 1
    else if ts.getD 0 "" ∈ iList then c + 1
    else if ts.getD 0 "" ∈ bList then c + 1
    else c
  else if ts.length = 3 then
    if ts.getD 0 "" ∈ memList then c + 1
    else if ts.getD 0 "" ∈ ujList then c + 1
    else if ts.getD 0 "" ∈ mvliList then c + 1
    else c
  else if ts.length = 2 then
    if ts.getD 0 "" = "j" ∨ ts.getD 0 "" = "jr" then c + 1 else c
  else if ts.length = 1 then
    if ts.getD 0 "" = "ret" then c + 1 else c
  else c

/-- The pass-one state: the global label table and `instruction_count`. -/
structure AsmState where
  table : LabelTable
  count1 : Nat
deriving DecidableEq

/-- Model of `first_pass` (assembler.c:256): when the line has a colon with a
non-empty remainder, record `(label, instruction_count + 1)` (the label text
is the first token before the colon; `remove_colon` is applied as in C, where
it never fires because `splitString` already dropped the colon) and count the
re-parsed remainder; otherwise count the whole line. -/
def first_pass (s : String) (st : AsmState) : AsmState :=
  if (splitString s).2 ≠ "" then
    { table := st.table ++ [((tokensOf (remove_colon (splitString s).1)).getD 0 "", st.count1 + 1)],
      count1 := fpTokens (tokens4 (splitString s).2) st.count1 }
  else
    { st with count1 := fpTokens (tokens4 s) st.count1 }

/-- The normalisation the driver applies to every line before each pass
(assembler_main.c:56-57, 82-83). -/
def normalizeLine (s : String) : String := replaceCommas (removeComment s)

/-- The driver's first pass (assembler_main.c:55-59) over a list of input
lines, starting from an empty label table and a zero counter. -/
def runFirstPass (lines : List String) : AsmState :=
  lines.foldl (fun st l => first_pass (normalizeLine l) st) ⟨[], 0⟩

/-- One iteration of the driver's second-pass loop (assembler_main.c:81-92).
The output guard `isHex & machine_code` (respectively `isBin & machine_code`)
is the bitwise AND of the flag value 1 with the word, so a line is written
exactly when bit 0 of the word is set; each write produces one output line. -/
def passTwoStep (tbl : LabelTable) : Nat × List Nat → String → Nat × List Nat
  | (c2, out), l =>
    if 1 &&& (assemble_instruction tbl c2 (normalizeLine l)).2 ≠ 0 then
      ((assemble_instruction tbl c2 (normalizeLine l)).1,
        out ++ [(assemble_instruction tbl c2 (normalizeLine l)).2])
    else ((assemble_instruction tbl c2 (normalizeLine l)).1, out)

/-- The driver's second pass: final `instruction_count2` and the emitted
words in order. -/
def runSecondPass (tbl : LabelTable) (lines : List String) : Nat × List Nat :=
  lines.foldl (passTwoStep tbl) (0, [])

/-- Uppercase hexadecimal digit characters, as produced by `%X`. -/
def hexChar (n : Nat) : Char :=
  match n with
  | 0 => '0' | 1 => '1' | 2 => '2' | 3 => '3' | 4 => '4'
  | 5 => '5' | 6 => '6' | 7 => '7' | 8 => '8' | 9 => '9'
  | 10 => 'A' | 11 => 'B' | 12 => 'C' | 13 => 'D' | 14 => 'E' | 15 => 'F'
  | _ => '?'

/-- The eight digits printed by `%08X` for a 32-bit value: most significant
nibble first, zero-padded to width 8. -/
def hexDigits8 (w : Nat) : List Char :=
  [hexChar (w / 16 ^ 7 % 16), hexChar (w / 16 ^ 6 % 16), hexChar (w / 16 ^ 5 % 16),
   hexChar (w / 16 ^ 4 % 16), hexChar (w / 16 ^ 3 % 16), hexChar (w / 16 ^ 2 % 16),
   hexChar (w / 16 % 16), hexChar (w % 16)]

/-- Model of `output_hex` (assembler.c:964): the characters written by
`fprintf(f, "0x%08X\n", code)`. -/
def output_hex (w : Nat) : List Char :=
  '0' :: 'x' :: hexDigits8 w ++ ['\n']

/-- Model of `output_binary` (assembler.c:972): for i = 31 down to 0 the
character is '1' when `code & (1 << i)` is non-zero, then a newline. -/
def output_binary (w : Nat) : List Char :=
  ((List.range 32).map (fun i => if w &&& (1 <<< (31 - i)) ≠ 0 then '1' else '0')) ++ ['\n']

/-- Spec-side definition: the 32-bit big-endian bit expansion of a value,
most significant bit first. -/
def bigEndianBits (v : Nat) : List Bool :=
  (List.range 32).map (fun i => v.testBit (31 - i))

/-- Spec-side definition: the value denoted by a big-endian list of
hexadecimal digit characters. -/
def hexListVal (l : List Char) : Nat :=
  l.foldl (fun a c => 16 * a + hexCharVal c) 0

end RiscvAsm

namespace RiscvAsm

/-- Claim C1: for every B-type branch whose label resolves to emitted index k
and which sits at emitted index j, the encoder places the byte offset
(k - j) * 4 with the standard B-type scatter (offset bit 12 into inst[31],
bits 10..5 into inst[30:25], bits 4..1 into inst[11:8], bit 11 into inst[7]),
so that the two-line program `loop: addi x1, x1, 1` / `bne x1, x2, loop`
encodes its second word as 0xFE209EE3.  The code does not: the bit-12 term of
every branch except `blt` is `(imm & 0x1000) << 20`, which moves offset bit
12 to bit 32 where it is lost, so inst[31] stays 0 and the program's second
word is 0x7E209EE3, not 0xFE209EE3. -/
theorem c1 :
    runSecondPass (runFirstPass ["loop: addi x1, x1, 1\n", "      bne  x1, x2, loop\n"]).table
        ["loop: addi x1, x1, 1\n", "      bne  x1, x2, loop\n"] =
      (2, [0x00108093, 0x7E209EE3]) ∧ (0x7E209EE3 : Nat) ≠ 0xFE209EE3 := by
  decide

/-- Claim C5: defining a label twice should be reported as a duplicate-label
error.  The code has no such check: `add_label` appends unconditionally, so
an input defining `L` twice yields a table with two `L` entries (the lookup
then resolves to the first) and no error is raised anywhere. -/
theorem c5 :
    runFirstPass ["L: add x1, x2, x3\n", "L: add x4, x5, x6\n"] =
       ⟨[("L", 1), ("L", 2)], 2⟩ ∧
    find_label_address [("L", 1), ("L", 2)] "L" = 1 := by
  decide

/-- Claim C6: a branch whose label operand is not in the symbol table should
raise an unresolved-label error instead of emitting a word.  The code
instead lets `find_label_address` return -1, computes the offset from that
address and emits the resulting word: on the single line `beq x1, x2, nowhere`
pass two emits the word 0x7E208CE3. -/
theorem c6 :
    find_label_address (runFirstPass ["beq x1, x2, nowhere\n"]).table "nowhere" = -1 ∧
    runSecondPass (runFirstPass ["beq x1, x2, nowhere\n"]).table ["beq x1, x2, nowhere\n"] =
      (1, [0x7E208CE3]) := by
  decide

/-- Claim C7: a line whose mnemonic is not in the supported set should make
pass two fail with an error rather than be silently dropped.  The code
returns the word 0 for such a line and the driver's output guard
`isHex & machine_code` then writes nothing, so the line vanishes silently:
on the single line `foo x1, x2, x3` pass two emits no output line, leaves the
counter at 0, and signals nothing. -/
theorem c7 :
    assemble_instruction [] 0 (normalizeLine "foo x1, x2, x3\n") = (0, 0) ∧
    runSecondPass [] ["foo x1, x2, x3\n"] = (0, []) := by
  decide

/-- Claim C8: an I-type or S-type immediate outside -2048..2047 should be an
out-of-range error.  The code performs no range check and masks the
immediate with 0xFFF: `addi x1, x1, 4096` is silently encoded as the same
word as `addi x1, x1, 0`, namely 0x00008093. -/
theorem c8 :
    assemble_instruction [] 0 "addi x1 x1 4096" = (1, 0x00008093) ∧
    assemble_instruction [] 0 "addi x1 x1 0" = (1, 0x00008093) := by
  decide

/-- Claim C3: every supported pseudo-instruction assembles to exactly the
word of its stated base expansion, for arbitrary operand tokens, any label
table and any position in the output stream: `li rd, imm` to
`addi rd, x0, imm`; `mv rd, rs` to `addi rd, rs, 0`; `j label` to
`jal x0, label`; `jr rs` to `jalr x0, rs, 0`; `ret` to `jalr x0, ra, 0`; and
in particular `li t0, 42` encodes to 0x02A00293. -/
theorem c3 :
    (∀ tbl c2 rd imm, (asmTokens tbl c2 ["li", rd, imm]).2 =
        (asmTokens tbl c2 ["addi", rd, "x0", imm]).2) ∧
    (∀ tbl c2 rd rs, (asmTokens tbl c2 ["mv", rd, rs]).2 =
        (asmTokens tbl c2 ["addi", rd, rs, "0"]).2) ∧
    (∀ tbl c2 label, (asmTokens tbl c2 ["j", label]).2 =
        (asmTokens tbl c2 ["jal", "x0", label]).2) ∧
    (∀ tbl c2 rs, (asmTokens tbl c2 ["jr", rs]).2 =
        (asmTokens tbl c2 ["jalr", "x0", rs, "0"]).2) ∧
    (∀ tbl c2, (asmTokens tbl c2 ["ret"]).2 =
        (asmTokens tbl c2 ["jalr", "x0", "ra", "0"]).2) ∧
    (asmTokens [] 0 ["li", "t0", "42"]).2 = 0x02A00293 := by
  refine ⟨fun tbl c2 rd imm => rfl, fun tbl c2 rd rs => ?_, fun tbl c2 label => rfl,
    fun tbl c2 rs => rfl, fun tbl c2 => rfl, by decide⟩
  show encR 0x13 0 0 (ui8 (get_register_number rd)) (ui8 (get_register_number rs))
      (ui8 (get_register_number "x0")) =
    encI 0x13 0 (ui8 (get_register_number rd)) (ui8 (get_register_number rs))
      (convertToDecimal "0")
  have h1 : ui8 (get_register_number "x0") = 0 := by decide
  have h2 : convertToDecimal "0" = 0 := by decide
  simp [encR, encI, h1, h2, ui32]

end RiscvAsm

namespace RiscvAsm

/-- Hex digit round trip: printing a nibble and reading it back is the
identity. -/
lemma hexCharVal_hexChar (d : Nat) (hd : d < 16) : hexCharVal (hexChar d) = d := by
  interval_cases d <;> decide

/-- The uppercase hexadecimal digit alphabet. -/
def upperHexChars : List Char :=
  ['0', '1', '2', '3', '4', '5', '6', '7', '8', '9', 'A', 'B', 'C', 'D', 'E', 'F']

/-- Every printed nibble is an uppercase hexadecimal digit. -/
lemma hexChar_mem (d : Nat) (hd : d < 16) : hexChar d ∈ upperHexChars := by
  interval_cases d <;> decide

/-- Testing a single bit with a mask agrees with `Nat.testBit`. -/
lemma and_bit_iff (w k : Nat) : (w &&& (1 <<< k) ≠ 0) ↔ w.testBit k := by
  rw [Nat.one_shiftLeft, Nat.and_two_pow]
  cases h : w.testBit k <;> simp [h, Nat.pow_eq_zero]

/-- Reading the eight digits of `%08X` back recovers the 32-bit value. -/
lemma hexListVal_hexDigits8 (w : Nat) (hw : w < 4294967296) :
    hexListVal (hexDigits8 w) = w := by
  have h : ∀ k : Nat, w / 16 ^ k % 16 < 16 := fun k => Nat.mod_lt _ (by norm_num)
  have h0 : w % 16 < 16 := Nat.mod_lt _ (by norm_num)
  simp only [hexListVal, hexDigits8, List.foldl]
  rw [hexCharVal_hexChar _ (h 7), hexCharVal_hexChar _ (h 6), hexCharVal_hexChar _ (h 5),
    hexCharVal_hexChar _ (h 4), hexCharVal_hexChar _ (h 3), hexCharVal_hexChar _ (h 2),
    hexCharVal_hexChar _ (by simpa using h 1), hexCharVal_hexChar _ h0]
  omega

/-- Claim C9: `output_hex` writes the literal `0x`, exactly eight uppercase
hexadecimal digits of the word with leading zeros, and a line break;
`output_binary` writes the 32 bits most-significant first followed by a line
break; and the binary rendering equals the 32-bit big-endian bit expansion of
the value shown by the hex rendering. -/
theorem c9 (w : Nat) (hw : w < 4294967296) :
    output_hex w = '0' :: 'x' :: hexDigits8 w ++ ['\n'] ∧
    (hexDigits8 w).length = 8 ∧
    (∀ c ∈ hexDigits8 w, c ∈ upperHexChars) ∧
    hexListVal (hexDigits8 w) = w ∧
    output_binary w =
      (bigEndianBits (hexListVal (hexDigits8 w))).map (fun b => if b then '1' else '0') ++ ['\n'] := by
  refine ⟨rfl, rfl, ?_, hexListVal_hexDigits8 w hw, ?_⟩
  · have h : ∀ k : Nat, w / 16 ^ k % 16 < 16 := fun k => Nat.mod_lt _ (by norm_num)
    have h0 : w % 16 < 16 := Nat.mod_lt _ (by norm_num)
    intro c hc
    simp only [hexDigits8, List.mem_cons, List.not_mem_nil, or_false] at hc
    rcases hc with rfl | rfl | rfl | rfl | rfl | rfl | rfl | rfl
    · exact hexChar_mem _ (h 7)
    · exact hexChar_mem _ (h 6)
    · exact hexChar_mem _ (h 5)
    · exact hexChar_mem _ (h 4)
    · exact hexChar_mem _ (h 3)
    · exact hexChar_mem _ (h 2)
    · exact hexChar_mem _ (by simpa using h 1)
    · exact hexChar_mem _ h0
  · rw [hexListVal_hexDigits8 w hw]
    unfold output_binary bigEndianBits
    rw [List.map_map]
    refine congrArg (· ++ ['\n']) (List.map_congr_left fun i _ => ?_)
    simp only [Function.comp]
    exact if_congr (and_bit_iff w (31 - i)) rfl rfl

/-- Concrete instantiation of `c9` at the word 0xFE209EE3. -/
theorem c9_witness :
    output_hex 4263550691 = '0' :: 'x' :: hexDigits8 4263550691 ++ ['\n'] ∧
    (hexDigits8 4263550691).length = 8 ∧
    (∀ c ∈ hexDigits8 4263550691, c ∈ upperHexChars) ∧
    hexListVal (hexDigits8 4263550691) = 4263550691 ∧
    output_binary 4263550691 =
      (bigEndianBits (hexListVal (hexDigits8 4263550691))).map
        (fun b => if b then '1' else '0') ++ ['\n'] :=
  c9 4263550691 (by norm_num)

end RiscvAsm

namespace RiscvAsm

/-- The 64 register names tested by the `strcmp` chain of
`get_register_number`, in chain order. -/
def regNames : List String :=
  ["x0", "zero", "x1", "ra", "x2", "sp", "x3", "gp", "x4", "tp",
   "x5", "t0", "x6", "t1", "x7", "t2", "x8", "s0", "x9", "s1",
   "x10", "a0", "x11", "a1", "x12", "a2", "x13", "a3", "x14", "a4",
   "x15", "a5", "x16", "a6", "x17", "a7", "x18", "s2", "x19", "s3",
   "x20", "s4", "x21", "s5", "x22", "s6", "x23", "s7", "x24", "s8",
   "x25", "s9", "x26", "s10", "x27", "s11", "x28", "t3", "x29", "t4",
   "x30", "t5", "x31", "t6"]

/-- The register table as (name, index) pairs: each numeric name with its
index and each ABI name with the index of its numeric counterpart. -/
def regPairs : List (String × Int) :=
  [("x0", 0), ("zero", 0), ("x1", 1), ("ra", 1), ("x2", 2), ("sp", 2),
   ("x3", 3), ("gp", 3), ("x4", 4), ("tp", 4), ("x5", 5), ("t0", 5),
   ("x6", 6), ("t1", 6), ("x7", 7), ("t2", 7), ("x8", 8), ("s0", 8),
   ("x9", 9), ("s1", 9), ("x10", 10), ("a0", 10), ("x11", 11), ("a1", 11),
   ("x12", 12), ("a2", 12), ("x13", 13), ("a3", 13), ("x14", 14), ("a4", 14),
   ("x15", 15), ("a5", 15), ("x16", 16), ("a6", 16), ("x17", 17), ("a7", 17),
   ("x18", 18), ("s2", 18), ("x19", 19), ("s3", 19), ("x20", 20), ("s4", 20),
   ("x21", 21), ("s5", 21), ("x22", 22), ("s6", 22), ("x23", 23), ("s7", 23),
   ("x24", 24), ("s8", 24), ("x25", 25), ("s9", 25), ("x26", 26), ("s10", 26),
   ("x27", 27), ("s11", 27), ("x28", 28), ("t3", 28), ("x29", 29), ("t4", 29),
   ("x30", 30), ("t5", 30), ("x31", 31), ("t6", 31)]

/-- The `strncmp`/`atoi` fallback test of `get_register_number`: the string
starts with `x` and the rest parses by `atoi` to a value in 0..31. -/
def xFallback (s : String) : Bool :=
  match s.data with
  | 'x' :: rest => decide (0 ≤ atoi (String.mk rest) ∧ atoi (String.mk rest) ≤ 31)
  | _ => false

/-- Equation for the `add` branch of `assemble_instruction`. -/
lemma asmTokens_add (tbl : LabelTable) (c2 : Nat) (a b c : String) :
    asmTokens tbl c2 ["add", a, b, c] =
      (c2 + 1, encR 0x33 0 0 (ui8 (get_register_number a)) (ui8 (get_register_number b)) (ui8 (get_register_number c))) := rfl

/-- Equation for the `sub` branch of `assemble_instruction`. -/
lemma asmTokens_sub (tbl : LabelTable) (c2 : Nat) (a b c : String) :
    asmTokens tbl c2 ["sub", a, b, c] =
      (c2 + 1, encR 0x33 0 0x20 (ui8 (get_register_number a)) (ui8 (get_register_number b)) (ui8 (get_register_number c))) := rfl

/-- Equation for the `or` branch of `assemble_instruction`. -/
lemma asmTokens_or (tbl : LabelTable) (c2 : Nat) (a b c : String) :
    asmTokens tbl c2 ["or", a, b, c] =
      (c2 + 1, encR 0x33 6 0 (ui8 (get_register_number a)) (ui8 (get_register_number b)) (ui8 (get_register_number c))) := rfl

/-- Equation for the `and` branch of `assemble_instruction`. -/
lemma asmTokens_and (tbl : LabelTable) (c2 : Nat) (a b c : String) :
    asmTokens tbl c2 ["and", a, b, c] =
      (c2 + 1, encR 0x33 7 0 (ui8 (get_register_number a)) (ui8 (get_register_number b)) (ui8 (get_register_number c))) := rfl

/-- Equation for the `xor` branch of `assemble_instruction`. -/
lemma asmTokens_xor (tbl : LabelTable) (c2 : Nat) (a b c : String) :
    asmTokens tbl c2 ["xor", a, b, c] =
      (c2 + 1, encR 0x33 4 0 (ui8 (get_register_number a)) (ui8 (get_register_number b)) (ui8 (get_register_number c))) := rfl

/-- Equation for the `sll` branch of `assemble_instruction`. -/
lemma asmTokens_sll (tbl : LabelTable) (c2 : Nat) (a b c : String) :
    asmTokens tbl c2 ["sll", a, b, c] =
      (c2 + 1, encR 0x33 1 0 (ui8 (get_register_number a)) (ui8 (get_register_number b)) (ui8 (get_register_number c))) := rfl

/-- Equation for the `srl` branch of `assemble_instruction`. -/
lemma asmTokens_srl (tbl : LabelTable) (c2 : Nat) (a b c : String) :
    asmTokens tbl c2 ["srl", a, b, c] =
      (c2 + 1, encR 0x33 5 0 (ui8 (get_register_number a)) (ui8 (get_register_number b)) (ui8 (get_register_number c))) := rfl

/-- Equation for the `sra` branch of `assemble_instruction`. -/
lemma asmTokens_sra (tbl : LabelTable) (c2 : Nat) (a b c : String) :
    asmTokens tbl c2 ["sra", a, b, c] =
      (c2 + 1, encR 0x33 5 0x20 (ui8 (get_register_number a)) (ui8 (get_register_number b)) (ui8 (get_register_number c))) := rfl

/-- Equation for the `slt` branch of `assemble_instruction`. -/
lemma asmTokens_slt (tbl : LabelTable) (c2 : Nat) (a b c : String) :
    asmTokens tbl c2 ["slt", a, b, c] =
      (c2 + 1, encR 0x33 2 0 (ui8 (get_register_number a)) (ui8 (get_register_number b)) (ui8 (get_register_number c))) := rfl

/-- Equation for the `sltu` branch of `assemble_instruction`. -/
lemma asmTokens_sltu (tbl : LabelTable) (c2 : Nat) (a b c : String) :
    asmTokens tbl c2 ["sltu", a, b, c] =
      (c2 + 1, encR 0x33 3 0 (ui8 (get_register_number a)) (ui8 (get_register_number b)) (ui8 (get_register_number c))) := rfl

/-- Contrapositive shape of the invalid-register case: a string on which
`get_register_number` does not return -1 is either one of the 64 table names
or passes the `x`/`atoi` fallback test. -/
lemma greg_ne_neg_one (s : String) (h : get_register_number s ≠ -1) :
    s ∈ regNames ∨ xFallback s = true := by
  unfold get_register_number at h
  by_cases c0 : s = "x0" ∨ s = "zero"
  · rcases c0 with rfl | rfl <;> (left; decide)
  rw [if_neg c0] at h
  by_cases c1 : s = "x1" ∨ s = "ra"
  · rcases c1 with rfl | rfl <;> (left; decide)
  rw [if_neg c1] at h
  by_cases c2 : s = "x2" ∨ s = "sp"
  · rcases c2 with rfl | rfl <;> (left; decide)
  rw [if_neg c2] at h
  by_cases c3 : s = "x3" ∨ s = "gp"
  · rcases c3 with rfl | rfl <;> (left; decide)
  rw [if_neg c3] at h
  by_cases c4 : s = "x4" ∨ s = "tp"
  · rcases c4 with rfl | rfl <;> (left; decide)
  rw [if_neg c4] at h
  by_cases c5 : s = "x5" ∨ s = "t0"
  · rcases c5 with rfl | rfl <;> (left; decide)
  rw [if_neg c5] at h
  by_cases c6 : s = "x6" ∨ s = "t1"
  · rcases c6 with rfl | rfl <;> (left; decide)
  rw [if_neg c6] at h
  by_cases c7 : s = "x7" ∨ s = "t2"
  · rcases c7 with rfl | rfl <;> (left; decide)
  rw [if_neg c7] at h
  by_cases c8 : s = "x8" ∨ s = "s0"
  · rcases c8 with rfl | rfl <;> (left; decide)
  rw [if_neg c8] at h
  by_cases c9 : s = "x9" ∨ s = "s1"
  · rcases c9 with rfl | rfl <;> (left; decide)
  rw [if_neg c9] at h
  by_cases c10 : s = "x10" ∨ s = "a0"
  · rcases c10 with rfl | rfl <;> (left; decide)
  rw [if_neg c10] at h
  by_cases c11 : s = "x11" ∨ s = "a1"
  · rcases c11 with rfl | rfl <;> (left; decide)
  rw [if_neg c11] at h
  by_cases c12 : s = "x12" ∨ s = "a2"
  · rcases c12 with rfl | rfl <;> (left; decide)
  rw [if_neg c12] at h
  by_cases c13 : s = "x13" ∨ s = "a3"
  · rcases c13 with rfl | rfl <;> (left; decide)
  rw [if_neg c13] at h
  by_cases c14 : s = "x14" ∨ s = "a4"
  · rcases c14 with rfl | rfl <;> (left; decide)
  rw [if_neg c14] at h
  by_cases c15 : s = "x15" ∨ s = "a5"
  · rcases c15 with rfl | rfl <;> (left; decide)
  rw [if_neg c15] at h
  by_cases c16 : s = "x16" ∨ s = "a6"
  · rcases c16 with rfl | rfl <;> (left; decide)
  rw [if_neg c16] at h
  by_cases c17 : s = "x17" ∨ s = "a7"
  · rcases c17 with rfl | rfl <;> (left; decide)
  rw [if_neg c17] at h
  by_cases c18 : s = "x18" ∨ s = "s2"
  · rcases c18 with rfl | rfl <;> (left; decide)
  rw [if_neg c18] at h
  by_cases c19 : s = "x19" ∨ s = "s3"
  · rcases c19 with rfl | rfl <;> (left; decide)
  rw [if_neg c19] at h
  by_cases c20 : s = "x20" ∨ s = "s4"
  · rcases c20 with rfl | rfl <;> (left; decide)
  rw [if_neg c20] at h
  by_cases c21 : s = "x21" ∨ s = "s5"
  · rcases c21 with rfl | rfl <;> (left; decide)
  rw [if_neg c21] at h
  by_cases c22 : s = "x22" ∨ s = "s6"
  · rcases c22 with rfl | rfl <;> (left; decide)
  rw [if_neg c22] at h
  by_cases c23 : s = "x23" ∨ s = "s7"
  · rcases c23 with rfl | rfl <;> (left; decide)
  rw [if_neg c23] at h
  by_cases c24 : s = "x24" ∨ s = "s8"
  · rcases c24 with rfl | rfl <;> (left; decide)
  rw [if_neg c24] at h
  by_cases c25 : s = "x25" ∨ s = "s9"
  · rcases c25 with rfl | rfl <;> (left; decide)
  rw [if_neg c25] at h
  by_cases c26 : s = "x26" ∨ s = "s10"
  · rcases c26 with rfl | rfl <;> (left; decide)
  rw [if_neg c26] at h
  by_cases c27 : s = "x27" ∨ s = "s11"
  · rcases c27 with rfl | rfl <;> (left; decide)
  rw [if_neg c27] at h
  by_cases c28 : s = "x28" ∨ s = "t3"
  · rcases c28 with rfl | rfl <;> (left; decide)
  rw [if_neg c28] at h
  by_cases c29 : s = "x29" ∨ s = "t4"
  · rcases c29 with rfl | rfl <;> (left; decide)
  rw [if_neg c29] at h
  by_cases c30 : s = "x30" ∨ s = "t5"
  · rcases c30 with rfl | rfl <;> (left; decide)
  rw [if_neg c30] at h
  by_cases c31 : s = "x31" ∨ s = "t6"
  · rcases c31 with rfl | rfl <;> (left; decide)
  rw [if_neg c31] at h
  split at h
  next rest heq =>
    split at h
    next hcond =>
      right
      unfold xFallback
      rw [heq]
      exact decide_eq_true hcond
    next hcond => exact absurd rfl h
  next => exact absurd rfl h


end RiscvAsm

namespace RiscvAsm

/-- A set bit survives an OR on the left operand. -/
lemma testBit_or_left {a : Nat} (b i : Nat) (h : a.testBit i = true) :
    (a ||| b).testBit i = true := by
  simp [Nat.testBit_or, h]

/-- A set bit survives an OR on the right operand. -/
lemma testBit_or_right {b : Nat} (a i : Nat) (h : b.testBit i = true) :
    (a ||| b).testBit i = true := by
  simp [Nat.testBit_or, h]

/-- If the five bits sh..sh+4 of a word are set, extracting them yields 31. -/
lemma ext_field (w sh : Nat) (h : ∀ j, j < 5 → w.testBit (sh + j) = true) :
    (w >>> sh) &&& 31 = 31 := by
  apply Nat.eq_of_testBit_eq
  intro i
  rw [Nat.testBit_and, Nat.testBit_shiftRight]
  by_cases hi : i < 5
  · rw [h i hi]
    have h31 : (31 : Nat).testBit i = true := by interval_cases i <;> decide
    rw [h31]
    rfl
  · have h31 : (31 : Nat).testBit i = false := by
      have h5 : (2 : Nat) ^ 5 ≤ 2 ^ i := Nat.pow_le_pow_right (by norm_num) (by omega)
      have hlt : (31 : Nat) < 2 ^ i := lt_of_lt_of_le (by norm_num) h5
      exact Nat.testBit_lt_two_pow hlt
    rw [h31]
    simp

/-- Converse direction: a field extracted as 31 has all five bits set. -/
lemma ext_field_rev (w sh : Nat) (h : (w >>> sh) &&& 31 = 31) (j : Nat) (hj : j < 5) :
    w.testBit (sh + j) = true := by
  have hc := congrArg (fun x => x.testBit j) h
  simp only [Nat.testBit_and, Nat.testBit_shiftRight] at hc
  have h31 : (31 : Nat).testBit j = true := by interval_cases j <;> decide
  rw [h31, Bool.and_true] at hc
  exact hc

/-- The field term `(255 & 0x1F) << sh` has bits sh..sh+4 set: this is the
register field produced by an invalid register name (value -1 narrowed to the
unsigned char 255). -/
lemma testBit_field31 (sh j : Nat) (hj : j < 5) :
    ((255 &&& 31) <<< sh).testBit (sh + j) = true := by
  have h : (255 &&& 31 : Nat) = 31 := by decide
  rw [h, Nat.testBit_shiftLeft, Nat.add_sub_cancel_left]
  have hge : decide (sh + j ≥ sh) = true := decide_eq_true (Nat.le_add_right sh j)
  rw [hge, Bool.true_and]
  interval_cases j <;> decide

/-- A word keeps a saturated field when OR-ed with anything. -/
lemma field_or_keep (w e sh : Nat) (h : (w >>> sh) &&& 31 = 31) :
    ((w ||| e) >>> sh) &&& 31 = 31 := by
  apply ext_field
  intro j hj
  exact testBit_or_left e (sh + j) (ext_field_rev w sh h j hj)

/-- 255 in the rd slot of an R-shaped word makes bits 11..7 read as 31. -/
lemma encR_rd_field (op f3 f7 b c : Nat) : ((encR op f3 f7 255 b c) >>> 7) &&& 31 = 31 := by
  apply ext_field
  intro j hj
  unfold encR
  apply testBit_or_left
  apply testBit_or_left
  apply testBit_or_left
  apply testBit_or_left
  apply testBit_or_right
  exact testBit_field31 7 j hj

/-- 255 in the rs1 slot of an R-shaped word makes bits 19..15 read as 31. -/
lemma encR_rs1_field (op f3 f7 a c : Nat) : ((encR op f3 f7 a 255 c) >>> 15) &&& 31 = 31 := by
  apply ext_field
  intro j hj
  unfold encR
  apply testBit_or_left
  apply testBit_or_left
  apply testBit_or_right
  exact testBit_field31 15 j hj

/-- 255 in the rs2 slot of an R-shaped word makes bits 24..20 read as 31. -/
lemma encR_rs2_field (op f3 f7 a b : Nat) : ((encR op f3 f7 a b 255) >>> 20) &&& 31 = 31 := by
  apply ext_field
  intro j hj
  unfold encR
  apply testBit_or_left
  apply testBit_or_right
  exact testBit_field31 20 j hj

/-- 255 in the rd slot of an I-shaped word makes bits 11..7 read as 31. -/
lemma encI_rd_field (op f3 b : Nat) (imm : Int) : ((encI op f3 255 b imm) >>> 7) &&& 31 = 31 := by
  apply ext_field
  intro j hj
  unfold encI
  apply testBit_or_left
  apply testBit_or_left
  apply testBit_or_left
  apply testBit_or_right
  exact testBit_field31 7 j hj

/-- 255 in the rs1 slot of an I-shaped word makes bits 19..15 read as 31. -/
lemma encI_rs1_field (op f3 a : Nat) (imm : Int) : ((encI op f3 a 255 imm) >>> 15) &&& 31 = 31 := by
  apply ext_field
  intro j hj
  unfold encI
  apply testBit_or_left
  apply testBit_or_right
  exact testBit_field31 15 j hj

/-- Shift-immediate variant of `encI_rd_field`. -/
lemma encIsh_rd_field (op f3 f7 b : Nat) (imm : Int) :
    ((encIsh op f3 f7 255 b imm) >>> 7) &&& 31 = 31 :=
  field_or_keep _ _ _ (encI_rd_field op f3 b imm)

/-- Shift-immediate variant of `encI_rs1_field`. -/
lemma encIsh_rs1_field (op f3 f7 a : Nat) (imm : Int) :
    ((encIsh op f3 f7 a 255 imm) >>> 15) &&& 31 = 31 :=
  field_or_keep _ _ _ (encI_rs1_field op f3 a imm)

/-- 255 in the rs1 slot of a B-shaped word makes bits 19..15 read as 31. -/
lemma encB_rs1_field (f3 c : Nat) (imm : Int) (sh12 : Nat) :
    ((encB f3 255 c imm sh12) >>> 15) &&& 31 = 31 := by
  apply ext_field
  intro j hj
  unfold encB
  apply testBit_or_left
  apply testBit_or_left
  apply testBit_or_left
  apply testBit_or_right
  exact testBit_field31 15 j hj

/-- 255 in the rs2 slot of a B-shaped word makes bits 24..20 read as 31. -/
lemma encB_rs2_field (f3 a : Nat) (imm : Int) (sh12 : Nat) :
    ((encB f3 a 255 imm sh12) >>> 20) &&& 31 = 31 := by
  apply ext_field
  intro j hj
  unfold encB
  apply testBit_or_left
  apply testBit_or_left
  apply testBit_or_right
  exact testBit_field31 20 j hj

/-- 255 in the rs2 slot of an S-shaped word makes bits 24..20 read as 31. -/
lemma encS_rs2_field (f3 a : Nat) (imm : Int) :
    ((encS f3 a 255 imm) >>> 20) &&& 31 = 31 := by
  apply ext_field
  intro j hj
  unfold encS
  apply testBit_or_left
  apply testBit_or_right
  exact testBit_field31 20 j hj

/-- 255 in the rd slot of a U-shaped word makes bits 11..7 read as 31. -/
lemma encU_rd_field (op : Nat) (imm : Int) : ((encU op 255 imm) >>> 7) &&& 31 = 31 := by
  apply ext_field
  intro j hj
  unfold encU
  apply testBit_or_left
  apply testBit_or_right
  exact testBit_field31 7 j hj

/-- 255 in the rd slot of a J-shaped word makes bits 11..7 read as 31. -/
lemma encJ_rd_field (imm : Int) : ((encJ 255 imm) >>> 7) &&& 31 = 31 := by
  apply ext_field
  intro j hj
  unfold encJ
  apply testBit_or_left
  apply testBit_or_left
  apply testBit_or_left
  apply testBit_or_left
  apply testBit_or_right
  exact testBit_field31 7 j hj

/-- `1 & n` is non-zero exactly when bit 0 of n is set. -/
lemma one_and_ne_zero_iff (n : Nat) : (1 &&& n ≠ 0) ↔ n.testBit 0 = true := by
  rw [Nat.and_comm, Nat.and_one_is_mod, Nat.testBit_zero]
  constructor
  · intro h
    have : n % 2 = 1 := by omega
    simp [this]
  · intro h
    have := of_decide_eq_true h
    omega

/-- An odd word stays odd under OR. -/
lemma or_odd_left (a b : Nat) (h : 1 &&& a ≠ 0) : 1 &&& (a ||| b) ≠ 0 := by
  rw [one_and_ne_zero_iff] at h ⊢
  exact testBit_or_left b 0 h

/-- R-shaped words with an odd opcode are odd. -/
lemma encR_odd (op f3 f7 a b c : Nat) (h : 1 &&& op ≠ 0) : 1 &&& encR op f3 f7 a b c ≠ 0 := by
  unfold encR
  exact or_odd_left _ _ (or_odd_left _ _ (or_odd_left _ _ (or_odd_left _ _ (or_odd_left _ _ h))))

/-- I-shaped words with an odd opcode are odd. -/
lemma encI_odd (op f3 a b : Nat) (imm : Int) (h : 1 &&& op ≠ 0) : 1 &&& encI op f3 a b imm ≠ 0 := by
  unfold encI
  exact or_odd_left _ _ (or_odd_left _ _ (or_odd_left _ _ (or_odd_left _ _ h)))

/-- Shift-immediate words with an odd opcode are odd. -/
lemma encIsh_odd (op f3 f7 a b : Nat) (imm : Int) (h : 1 &&& op ≠ 0) :
    1 &&& encIsh op f3 f7 a b imm ≠ 0 := by
  unfold encIsh
  exact or_odd_left _ _ (encI_odd op f3 a b imm h)

/-- B-shaped words are odd (their opcode 0x63 is odd). -/
lemma encB_odd (f3 a b : Nat) (imm : Int) (sh12 : Nat) : 1 &&& encB f3 a b imm sh12 ≠ 0 := by
  unfold encB
  exact or_odd_left _ _ (or_odd_left _ _ (or_odd_left _ _ (or_odd_left _ _ (or_odd_left _ _
    (or_odd_left _ _ (or_odd_left _ _ (by decide)))))))

/-- S-shaped words are odd (their opcode 0x23 is odd). -/
lemma encS_odd (f3 a b : Nat) (imm : Int) : 1 &&& encS f3 a b imm ≠ 0 := by
  unfold encS
  exact or_odd_left _ _ (or_odd_left _ _ (or_odd_left _ _ (or_odd_left _ _ (or_odd_left _ _
    (by decide)))))

/-- U-shaped words with an odd opcode are odd. -/
lemma encU_odd (op a : Nat) (imm : Int) (h : 1 &&& op ≠ 0) : 1 &&& encU op a imm ≠ 0 := by
  unfold encU
  exact or_odd_left _ _ (or_odd_left _ _ h)

/-- J-shaped words are odd (their opcode 0x6F is odd). -/
lemma encJ_odd (a : Nat) (imm : Int) : 1 &&& encJ a imm ≠ 0 := by
  unfold encJ
  exact or_odd_left _ _ (or_odd_left _ _ (or_odd_left _ _ (or_odd_left _ _ (or_odd_left _ _
    (by decide)))))

/-- The unsigned char image of the invalid-register result -1 is 255. -/
lemma ui8_neg_one : ui8 (-1) = 255 := by decide

end RiscvAsm

namespace RiscvAsm

/-- Equation for the `addi` branch of `assemble_instruction`. -/
lemma asmTokens_addi (tbl : LabelTable) (c2 : Nat) (a b i : String) :
    asmTokens tbl c2 ["addi", a, b, i] =
      (c2 + 1, encI 0x13 0 (ui8 (get_register_number a)) (ui8 (get_register_number b)) (convertToDecimal i)) := rfl

/-- Equation for the `slti` branch of `assemble_instruction`. -/
lemma asmTokens_slti (tbl : LabelTable) (c2 : Nat) (a b i : String) :
    asmTokens tbl c2 ["slti", a, b, i] =
      (c2 + 1, encI 0x13 2 (ui8 (get_register_number a)) (ui8 (get_register_number b)) (convertToDecimal i)) := rfl

/-- Equation for the `sltiu` branch of `assemble_instruction`. -/
lemma asmTokens_sltiu (tbl : LabelTable) (c2 : Nat) (a b i : String) :
    asmTokens tbl c2 ["sltiu", a, b, i] =
      (c2 + 1, encI 0x13 3 (ui8 (get_register_number a)) (ui8 (get_register_number b)) (convertToDecimal i)) := rfl

/-- Equation for the `xori` branch of `assemble_instruction`. -/
lemma asmTokens_xori (tbl : LabelTable) (c2 : Nat) (a b i : String) :
    asmTokens tbl c2 ["xori", a, b, i] =
      (c2 + 1, encI 0x13 4 (ui8 (get_register_number a)) (ui8 (get_register_number b)) (convertToDecimal i)) := rfl

/-- Equation for the `ori` branch of `assemble_instruction`. -/
lemma asmTokens_ori (tbl : LabelTable) (c2 : Nat) (a b i : String) :
    asmTokens tbl c2 ["ori", a, b, i] =
      (c2 + 1, encI 0x13 6 (ui8 (get_register_number a)) (ui8 (get_register_number b)) (convertToDecimal i)) := rfl

/-- Equation for the `andi` branch of `assemble_instruction`. -/
lemma asmTokens_andi (tbl : LabelTable) (c2 : Nat) (a b i : String) :
    asmTokens tbl c2 ["andi", a, b, i] =
      (c2 + 1, encI 0x13 7 (ui8 (get_register_number a)) (ui8 (get_register_number b)) (convertToDecimal i)) := rfl

/-- Equation for the `jalr` branch of `assemble_instruction`. -/
lemma asmTokens_jalr (tbl : LabelTable) (c2 : Nat) (a b i : String) :
    asmTokens tbl c2 ["jalr", a, b, i] =
      (c2 + 1, encI 0x67 0 (ui8 (get_register_number a)) (ui8 (get_register_number b)) (convertToDecimal i)) := rfl

/-- Equation for the `slli` branch of `assemble_instruction`. -/
lemma asmTokens_slli (tbl : LabelTable) (c2 : Nat) (a b i : String) :
    asmTokens tbl c2 ["slli", a, b, i] =
      (c2 + 1, encIsh 0x13 1 0 (ui8 (get_register_number a)) (ui8 (get_register_number b)) (convertToDecimal i)) := rfl

/-- Equation for the `srli` branch of `assemble_instruction`. -/
lemma asmTokens_srli (tbl : LabelTable) (c2 : Nat) (a b i : String) :
    asmTokens tbl c2 ["srli", a, b, i] =
      (c2 + 1, encIsh 0x13 5 0 (ui8 (get_register_number a)) (ui8 (get_register_number b)) (convertToDecimal i)) := rfl

/-- Equation for the `srai` branch of `assemble_instruction`. -/
lemma asmTokens_srai (tbl : LabelTable) (c2 : Nat) (a b i : String) :
    asmTokens tbl c2 ["srai", a, b, i] =
      (c2 + 1, encIsh 0x13 5 0x20 (ui8 (get_register_number a)) (ui8 (get_register_number b)) (convertToDecimal i)) := rfl

/-- Equation for the `beq` branch of `assemble_instruction`. -/
lemma asmTokens_beq (tbl : LabelTable) (c2 : Nat) (a b l : String) :
    asmTokens tbl c2 ["beq", a, b, l] =
      (c2 + 1, encB 0 (ui8 (get_register_number a)) (ui8 (get_register_number b)) ((find_label_address tbl l - (c2 + 1)) * 4) 20) := rfl

/-- Equation for the `bne` branch of `assemble_instruction`. -/
lemma asmTokens_bne (tbl : LabelTable) (c2 : Nat) (a b l : String) :
    asmTokens tbl c2 ["bne", a, b, l] =
      (c2 + 1, encB 1 (ui8 (get_register_number a)) (ui8 (get_register_number b)) ((find_label_address tbl l - (c2 + 1)) * 4) 20) := rfl

/-- Equation for the `blt` branch of `assemble_instruction`. -/
lemma asmTokens_blt (tbl : LabelTable) (c2 : Nat) (a b l : String) :
    asmTokens tbl c2 ["blt", a, b, l] =
      (c2 + 1, encB 4 (ui8 (get_register_number a)) (ui8 (get_register_number b)) ((find_label_address tbl l - (c2 + 1)) * 4) 19) := rfl

/-- Equation for the `bgt` branch of `assemble_instruction`. -/
lemma asmTokens_bgt (tbl : LabelTable) (c2 : Nat) (a b l : String) :
    asmTokens tbl c2 ["bgt", a, b, l] =
      (c2 + 1, encB 4 (ui8 (get_register_number b)) (ui8 (get_register_number a)) ((find_label_address tbl l - (c2 + 1)) * 4) 20) := rfl

/-- Equation for the `bge` branch of `assemble_instruction`. -/
lemma asmTokens_bge (tbl : LabelTable) (c2 : Nat) (a b l : String) :
    asmTokens tbl c2 ["bge", a, b, l] =
      (c2 + 1, encB 5 (ui8 (get_register_number a)) (ui8 (get_register_number b)) ((find_label_address tbl l - (c2 + 1)) * 4) 20) := rfl

/-- Equation for the `ble` branch of `assemble_instruction`. -/
lemma asmTokens_ble (tbl : LabelTable) (c2 : Nat) (a b l : String) :
    asmTokens tbl c2 ["ble", a, b, l] =
      (c2 + 1, encB 5 (ui8 (get_register_number b)) (ui8 (get_register_number a)) ((find_label_address tbl l - (c2 + 1)) * 4) 20) := rfl

/-- Equation for the `bltu` branch of `assemble_instruction`. -/
lemma asmTokens_bltu (tbl : LabelTable) (c2 : Nat) (a b l : String) :
    asmTokens tbl c2 ["bltu", a, b, l] =
      (c2 + 1, encB 6 (ui8 (get_register_number a)) (ui8 (get_register_number b)) ((find_label_address tbl l - (c2 + 1)) * 4) 20) := rfl

/-- Equation for the `bgeu` branch of `assemble_instruction`. -/
lemma asmTokens_bgeu (tbl : LabelTable) (c2 : Nat) (a b l : String) :
    asmTokens tbl c2 ["bgeu", a, b, l] =
      (c2 + 1, encB 7 (ui8 (get_register_number a)) (ui8 (get_register_number b)) ((find_label_address tbl l - (c2 + 1)) * 4) 20) := rfl

/-- Equation for the `lb` branch of `assemble_instruction`. -/
lemma asmTokens_lb (tbl : LabelTable) (c2 : Nat) (a mo : String) :
    asmTokens tbl c2 ["lb", a, mo] =
      (c2 + 1, encI 0x03 0 (ui8 (get_register_number a)) (ui8 (get_register_number (parseMem mo).2)) (parseMem mo).1) := rfl

/-- Equation for the `lh` branch of `assemble_instruction`. -/
lemma asmTokens_lh (tbl : LabelTable) (c2 : Nat) (a mo : String) :
    asmTokens tbl c2 ["lh", a, mo] =
      (c2 + 1, encI 0x03 1 (ui8 (get_register_number a)) (ui8 (get_register_number (parseMem mo).2)) (parseMem mo).1) := rfl

/-- Equation for the `lw` branch of `assemble_instruction`. -/
lemma asmTokens_lw (tbl : LabelTable) (c2 : Nat) (a mo : String) :
    asmTokens tbl c2 ["lw", a, mo] =
      (c2 + 1, encI 0x03 2 (ui8 (get_register_number a)) (ui8 (get_register_number (parseMem mo).2)) (parseMem mo).1) := rfl

/-- Equation for the `lbu` branch of `assemble_instruction`. -/
lemma asmTokens_lbu (tbl : LabelTable) (c2 : Nat) (a mo : String) :
    asmTokens tbl c2 ["lbu", a, mo] =
      (c2 + 1, encI 0x03 4 (ui8 (get_register_number a)) (ui8 (get_register_number (parseMem mo).2)) (parseMem mo).1) := rfl

/-- Equation for the `lhu` branch of `assemble_instruction`. -/
lemma asmTokens_lhu (tbl : LabelTable) (c2 : Nat) (a mo : String) :
    asmTokens tbl c2 ["lhu", a, mo] =
      (c2 + 1, encI 0x03 5 (ui8 (get_register_number a)) (ui8 (get_register_number (parseMem mo).2)) (parseMem mo).1) := rfl

/-- Equation for the `sb` branch of `assemble_instruction`. -/
lemma asmTokens_sb (tbl : LabelTable) (c2 : Nat) (a mo : String) :
    asmTokens tbl c2 ["sb", a, mo] =
      (c2 + 1, encS 0 (ui8 (get_register_number (parseMem mo).2)) (ui8 (get_register_number a)) (parseMem mo).1) := rfl

/-- Equation for the `sh` branch of `assemble_instruction`. -/
lemma asmTokens_sh (tbl : LabelTable) (c2 : Nat) (a mo : String) :
    asmTokens tbl c2 ["sh", a, mo] =
      (c2 + 1, encS 1 (ui8 (get_register_number (parseMem mo).2)) (ui8 (get_register_number a)) (parseMem mo).1) := rfl

/-- Equation for the `sw` branch of `assemble_instruction`. -/
lemma asmTokens_sw (tbl : LabelTable) (c2 : Nat) (a mo : String) :
    asmTokens tbl c2 ["sw", a, mo] =
      (c2 + 1, encS 2 (ui8 (get_register_number (parseMem mo).2)) (ui8 (get_register_number a)) (parseMem mo).1) := rfl

/-- Equation for the `auipc` branch of `assemble_instruction`. -/
lemma asmTokens_auipc (tbl : LabelTable) (c2 : Nat) (a i : String) :
    asmTokens tbl c2 ["auipc", a, i] =
      (c2 + 1, encU 0x17 (ui8 (get_register_number a)) (convertToDecimal i)) := rfl

/-- Equation for the `lui` branch of `assemble_instruction`. -/
lemma asmTokens_lui (tbl : LabelTable) (c2 : Nat) (a i : String) :
    asmTokens tbl c2 ["lui", a, i] =
      (c2 + 1, encU 0x37 (ui8 (get_register_number a)) (convertToDecimal i)) := rfl

/-- Equation for the `jal` branch of `assemble_instruction`. -/
lemma asmTokens_jal (tbl : LabelTable) (c2 : Nat) (a l : String) :
    asmTokens tbl c2 ["jal", a, l] =
      (c2 + 1, encJ (ui8 (get_register_number a)) ((find_label_address tbl l - (c2 + 1)) * 4)) := rfl

/-- Equation for the `li` branch of `assemble_instruction`. -/
lemma asmTokens_li (tbl : LabelTable) (c2 : Nat) (a i : String) :
    asmTokens tbl c2 ["li", a, i] =
      (c2 + 1, encI 0x13 0 (ui8 (get_register_number a)) (ui8 (get_register_number "x0")) (convertToDecimal i)) := rfl

/-- Equation for the `mv` branch of `assemble_instruction`. -/
lemma asmTokens_mv (tbl : LabelTable) (c2 : Nat) (a b : String) :
    asmTokens tbl c2 ["mv", a, b] =
      (c2 + 1, encR 0x13 0 0 (ui8 (get_register_number a)) (ui8 (get_register_number b)) (ui8 (get_register_number "x0"))) := rfl

/-- Equation for the `j` branch of `assemble_instruction`. -/
lemma asmTokens_j (tbl : LabelTable) (c2 : Nat) (l : String) :
    asmTokens tbl c2 ["j", l] =
      (c2 + 1, encJ (ui8 (get_register_number "x0")) ((find_label_address tbl l - (c2 + 1)) * 4)) := rfl

/-- Equation for the `jr` branch of `assemble_instruction`. -/
lemma asmTokens_jr (tbl : LabelTable) (c2 : Nat) (a : String) :
    asmTokens tbl c2 ["jr", a] =
      (c2 + 1, encI 0x67 0 (ui8 (get_register_number "x0")) (ui8 (get_register_number a)) 0) := rfl

/-- Equation for the `ret` branch of `assemble_instruction`. -/
lemma asmTokens_ret (tbl : LabelTable) (c2 : Nat) :
    asmTokens tbl c2 ["ret"] =
      (c2 + 1, encI 0x67 0 (ui8 (get_register_number "x0")) (ui8 (get_register_number "ra")) 0) := rfl

/-- The claim C4 as frozen is false on the code: `get_register_number "x01"`
is 1 although `"x01"` is none of the numeric or ABI register names, because
the `strncmp`/`atoi` fallback parses the suffix `01` to 1. -/
theorem c4_counterexample :
    get_register_number "x01" = 1 ∧ "x01" ∉ regNames := by decide

/-- The eight branch mnemonics proper (the jalr/branch arm of the dispatch
without `jalr`). -/
def brList : List String :=
  ["beq", "bne", "blt", "bge", "bltu", "bgeu", "bgt", "ble"]

/-- General behaviour of the `strncmp`/`atoi` fallback: every `x`-headed
string outside the name table whose suffix `atoi`-parses into 0..31 returns
that parsed value. -/
lemma greg_fallback (s : String) (rest : List Char) (hd : s.data = 'x' :: rest)
    (hn : s ∉ regNames) (hge : 0 ≤ atoi (String.mk rest))
    (hle : atoi (String.mk rest) ≤ 31) :
    get_register_number s = atoi (String.mk rest) := by
  unfold get_register_number
  rw [if_neg (fun hc => hn (show s ∈ regNames by rcases hc with rfl | rfl <;> decide))]
  rw [if_neg (fun hc => hn (show s ∈ regNames by rcases hc with rfl | rfl <;> decide))]
  rw [if_neg (fun hc => hn (show s ∈ regNames by rcases hc with rfl | rfl <;> decide))]
  rw [if_neg (fun hc => hn (show s ∈ regNames by rcases hc with rfl | rfl <;> decide))]
  rw [if_neg (fun hc => hn (show s ∈ regNames by rcases hc with rfl | rfl <;> decide))]
  rw [if_neg (fun hc => hn (show s ∈ regNames by rcases hc with rfl | rfl <;> decide))]
  rw [if_neg (fun hc => hn (show s ∈ regNames by rcases hc with rfl | rfl <;> decide))]
  rw [if_neg (fun hc => hn (show s ∈ regNames by rcases hc with rfl | rfl <;> decide))]
  rw [if_neg (fun hc => hn (show s ∈ regNames by rcases hc with rfl | rfl <;> decide))]
  rw [if_neg (fun hc => hn (show s ∈ regNames by rcases hc with rfl | rfl <;> decide))]
  rw [if_neg (fun hc => hn (show s ∈ regNames by rcases hc with rfl | rfl <;> decide))]
  rw [if_neg (fun hc => hn (show s ∈ regNames by rcases hc with rfl | rfl <;> decide))]
  rw [if_neg (fun hc => hn (show s ∈ regNames by rcases hc with rfl | rfl <;> decide))]
  rw [if_neg (fun hc => hn (show s ∈ regNames by rcases hc with rfl | rfl <;> decide))]
  rw [if_neg (fun hc => hn (show s ∈ regNames by rcases hc with rfl | rfl <;> decide))]
  rw [if_neg (fun hc => hn (show s ∈ regNames by rcases hc with rfl | rfl <;> decide))]
  rw [if_neg (fun hc => hn (show s ∈ regNames by rcases hc with rfl | rfl <;> decide))]
  rw [if_neg (fun hc => hn (show s ∈ regNames by rcases hc with rfl | rfl <;> decide))]
  rw [if_neg (fun hc => hn (show s ∈ regNames by rcases hc with rfl | rfl <;> decide))]
  rw [if_neg (fun hc => hn (show s ∈ regNames by rcases hc with rfl | rfl <;> decide))]
  rw [if_neg (fun hc => hn (show s ∈ regNames by rcases hc with rfl | rfl <;> decide))]
  rw [if_neg (fun hc => hn (show s ∈ regNames by rcases hc with rfl | rfl <;> decide))]
  rw [if_neg (fun hc => hn (show s ∈ regNames by rcases hc with rfl | rfl <;> decide))]
  rw [if_neg (fun hc => hn (show s ∈ regNames by rcases hc with rfl | rfl <;> decide))]
  rw [if_neg (fun hc => hn (show s ∈ regNames by rcases hc with rfl | rfl <;> decide))]
  rw [if_neg (fun hc => hn (show s ∈ regNames by rcases hc with rfl | rfl <;> decide))]
  rw [if_neg (fun hc => hn (show s ∈ regNames by rcases hc with rfl | rfl <;> decide))]
  rw [if_neg (fun hc => hn (show s ∈ regNames by rcases hc with rfl | rfl <;> decide))]
  rw [if_neg (fun hc => hn (show s ∈ regNames by rcases hc with rfl | rfl <;> decide))]
  rw [if_neg (fun hc => hn (show s ∈ regNames by rcases hc with rfl | rfl <;> decide))]
  rw [if_neg (fun hc => hn (show s ∈ regNames by rcases hc with rfl | rfl <;> decide))]
  rw [if_neg (fun hc => hn (show s ∈ regNames by rcases hc with rfl | rfl <;> decide))]
  rw [hd]
  exact if_pos ⟨hge, hle⟩

/-- Claim C4 (amended): `get_register_number` maps every numeric register
name and every ABI name to its table index; consequently, for every
supported instruction form, replacing any register operand — rd, rs1, rs2,
a branch register, the base register of a memory operand, or the register of
a pseudo-instruction — by one with the same register number (in particular
an ABI alias by its numeric counterpart) leaves the encoded word
bit-identical.  It returns -1 for every string that is neither one of these
names nor an `x`-headed string whose suffix `atoi`-parses into 0..31, and
every such fallback string (e.g. `"x01"`) instead returns the parsed
value. -/
theorem c4 :
    (∀ p ∈ regPairs, get_register_number p.1 = p.2) ∧
    (∀ tbl c2 m t1 u1 t2 u2 t3 u3, m ∈ rList →
      get_register_number t1 = get_register_number u1 →
      get_register_number t2 = get_register_number u2 →
      get_register_number t3 = get_register_number u3 →
      asmTokens tbl c2 [m, t1, t2, t3] = asmTokens tbl c2 [m, u1, u2, u3]) ∧
    (∀ tbl c2 m t1 u1 t2 u2 i, m ∈ iList ∨ m = "jalr" →
      get_register_number t1 = get_register_number u1 →
      get_register_number t2 = get_register_number u2 →
      asmTokens tbl c2 [m, t1, t2, i] = asmTokens tbl c2 [m, u1, u2, i]) ∧
    (∀ tbl c2 m t1 u1 t2 u2 l, m ∈ brList →
      get_register_number t1 = get_register_number u1 →
      get_register_number t2 = get_register_number u2 →
      asmTokens tbl c2 [m, t1, t2, l] = asmTokens tbl c2 [m, u1, u2, l]) ∧
    (∀ tbl c2 m t1 u1 mo mo2, m ∈ memList →
      get_register_number t1 = get_register_number u1 →
      (parseMem mo).1 = (parseMem mo2).1 →
      get_register_number (parseMem mo).2 = get_register_number (parseMem mo2).2 →
      asmTokens tbl c2 [m, t1, mo] = asmTokens tbl c2 [m, u1, mo2]) ∧
    (∀ tbl c2 m t1 u1 i, m ∈ ["auipc", "lui", "li"] →
      get_register_number t1 = get_register_number u1 →
      asmTokens tbl c2 [m, t1, i] = asmTokens tbl c2 [m, u1, i]) ∧
    (∀ tbl c2 t1 u1 l, get_register_number t1 = get_register_number u1 →
      asmTokens tbl c2 ["jal", t1, l] = asmTokens tbl c2 ["jal", u1, l]) ∧
    (∀ tbl c2 t1 u1 t2 u2, get_register_number t1 = get_register_number u1 →
      get_register_number t2 = get_register_number u2 →
      asmTokens tbl c2 ["mv", t1, t2] = asmTokens tbl c2 ["mv", u1, u2]) ∧
    (∀ tbl c2 t1 u1, get_register_number t1 = get_register_number u1 →
      asmTokens tbl c2 ["jr", t1] = asmTokens tbl c2 ["jr", u1]) ∧
    (∀ s : String, s ∉ regNames → xFallback s = false → get_register_number s = -1) ∧
    (∀ s rest, s.data = 'x' :: rest → s ∉ regNames →
      0 ≤ atoi (String.mk rest) → atoi (String.mk rest) ≤ 31 →
      get_register_number s = atoi (String.mk rest)) := by
  refine ⟨by decide, ?_, ?_, ?_, ?_, ?_, ?_, ?_, ?_, ?_, ?_⟩
  · intro tbl c2 m t1 u1 t2 u2 t3 u3 hm h1 h2 h3
    fin_cases hm <;>
      simp only [asmTokens_add, asmTokens_sub, asmTokens_or, asmTokens_and, asmTokens_xor,
        asmTokens_sll, asmTokens_srl, asmTokens_sra, asmTokens_slt, asmTokens_sltu, h1, h2, h3]
  · intro tbl c2 m t1 u1 t2 u2 i hm h1 h2
    rcases hm with hm | rfl
    · fin_cases hm <;>
        simp only [asmTokens_addi, asmTokens_slli, asmTokens_slti, asmTokens_sltiu,
          asmTokens_xori, asmTokens_srli, asmTokens_srai, asmTokens_ori, asmTokens_andi,
          h1, h2]
    · simp only [asmTokens_jalr, h1, h2]
  · intro tbl c2 m t1 u1 t2 u2 l hm h1 h2
    fin_cases hm <;>
      simp only [asmTokens_beq, asmTokens_bne, asmTokens_blt, asmTokens_bge, asmTokens_bltu,
        asmTokens_bgeu, asmTokens_bgt, asmTokens_ble, h1, h2]
  · intro tbl c2 m t1 u1 mo mo2 hm h1 himm hreg
    fin_cases hm <;>
      simp only [asmTokens_lb, asmTokens_lh, asmTokens_lw, asmTokens_lbu, asmTokens_lhu,
        asmTokens_sb, asmTokens_sh, asmTokens_sw, h1, himm, hreg]
  · intro tbl c2 m t1 u1 i hm h1
    fin_cases hm <;>
      simp only [asmTokens_auipc, asmTokens_lui, asmTokens_li, h1]
  · intro tbl c2 t1 u1 l h1
    simp only [asmTokens_jal, h1]
  · intro tbl c2 t1 u1 t2 u2 h1 h2
    simp only [asmTokens_mv, h1, h2]
  · intro tbl c2 t1 u1 h1
    simp only [asmTokens_jr, h1]
  · intro s h1 h2
    by_contra hne
    rcases greg_ne_neg_one s hne with hmem | hfb
    · exact h1 hmem
    · rw [h2] at hfb
      exact Bool.false_ne_true hfb
  · intro s rest hd hn hge hle
    exact greg_fallback s rest hd hn hge hle

/-- Concrete instantiation of `c4`: a name outside the table and the
fallback is invalid, while the fallback string `"x01"` returns the value its
suffix parses to. -/
theorem c4_witness :
    get_register_number "q7" = -1 ∧
    get_register_number "x01" = atoi (String.mk ['0', '1']) := by
  obtain ⟨-, -, -, -, -, -, -, -, -, hinv, hfb⟩ := c4
  exact ⟨hinv "q7" (by decide) (by decide),
    hfb "x01" ['0', '1'] rfl (by decide) (by decide) (by decide)⟩

end RiscvAsm

namespace RiscvAsm

/-- Selector for the register-operand token named by a `regFieldTable`
entry. -/
def pickTok : Nat → String → String → String → String
  | 1, t1, _, _ => t1
  | 2, _, t2, _ => t2
  | 3, _, _, t3 => t3
  | _, _, _, _ => ""

/-- The token list of a line with the given mnemonic and operand count. -/
def mkTokens (m : String) : Nat → String → String → String → List String
  | 4, t1, t2, t3 => [m, t1, t2, t3]
  | 3, t1, t2, _ => [m, t1, t2]
  | 2, t1, _, _ => [m, t1]
  | _, _, _, _ => [m]

/-- Every plain register-operand position of every recognised mnemonic, as
(mnemonic, token count, operand position, field shift): the 5-bit field into
which `assemble_instruction` packs that operand starts at the given bit.
The store mnemonics place their first operand in the rs2 slot (bit 20), and
`bgt`/`ble` swap their two register operands. -/
def regFieldTable : List (String × Nat × Nat × Nat) :=
  [("add", 4, 1, 7), ("add", 4, 2, 15), ("add", 4, 3, 20),
   ("sub", 4, 1, 7), ("sub", 4, 2, 15), ("sub", 4, 3, 20),
   ("or", 4, 1, 7), ("or", 4, 2, 15), ("or", 4, 3, 20),
   ("and", 4, 1, 7), ("and", 4, 2, 15), ("and", 4, 3, 20),
   ("xor", 4, 1, 7), ("xor", 4, 2, 15), ("xor", 4, 3, 20),
   ("sll", 4, 1, 7), ("sll", 4, 2, 15), ("sll", 4, 3, 20),
   ("srl", 4, 1, 7), ("srl", 4, 2, 15), ("srl", 4, 3, 20),
   ("sra", 4, 1, 7), ("sra", 4, 2, 15), ("sra", 4, 3, 20),
   ("slt", 4, 1, 7), ("slt", 4, 2, 15), ("slt", 4, 3, 20),
   ("sltu", 4, 1, 7), ("sltu", 4, 2, 15), ("sltu", 4, 3, 20),
   ("addi", 4, 1, 7), ("addi", 4, 2, 15), ("slli", 4, 1, 7),
   ("slli", 4, 2, 15), ("slti", 4, 1, 7), ("slti", 4, 2, 15),
   ("sltiu", 4, 1, 7), ("sltiu", 4, 2, 15), ("xori", 4, 1, 7),
   ("xori", 4, 2, 15), ("srli", 4, 1, 7), ("srli", 4, 2, 15),
   ("srai", 4, 1, 7), ("srai", 4, 2, 15), ("ori", 4, 1, 7),
   ("ori", 4, 2, 15), ("andi", 4, 1, 7), ("andi", 4, 2, 15),
   ("jalr", 4, 1, 7), ("jalr", 4, 2, 15), ("beq", 4, 1, 15),
   ("beq", 4, 2, 20), ("bne", 4, 1, 15), ("bne", 4, 2, 20),
   ("blt", 4, 1, 15), ("blt", 4, 2, 20), ("bge", 4, 1, 15),
   ("bge", 4, 2, 20), ("bltu", 4, 1, 15), ("bltu", 4, 2, 20),
   ("bgeu", 4, 1, 15), ("bgeu", 4, 2, 20), ("bgt", 4, 1, 20),
   ("bgt", 4, 2, 15), ("ble", 4, 1, 20), ("ble", 4, 2, 15),
   ("lb", 3, 1, 7), ("lh", 3, 1, 7), ("lw", 3, 1, 7),
   ("lbu", 3, 1, 7), ("lhu", 3, 1, 7), ("sb", 3, 1, 20),
   ("sh", 3, 1, 20), ("sw", 3, 1, 20), ("auipc", 3, 1, 7),
   ("lui", 3, 1, 7), ("jal", 3, 1, 7), ("li", 3, 1, 7),
   ("mv", 3, 1, 7), ("mv", 3, 2, 15), ("jr", 2, 1, 15)]

/-- Claim C10: on a line with a recognised mnemonic whose register operand at
some position is not a valid register name (`get_register_number` returns
-1), `assemble_instruction` raises no error: it still increments the counter
and returns a word that the driver emits (bit 0 of the word is set), in
which the corresponding 5-bit register field holds the value 31 — the -1
result narrowed through an unsigned char to 255 and masked with 0x1F. -/
theorem c10 : ∀ m a p sh, (m, a, p, sh) ∈ regFieldTable → ∀ tbl c2 t1 t2 t3,
    get_register_number (pickTok p t1 t2 t3) = -1 →
    ((asmTokens tbl c2 (mkTokens m a t1 t2 t3)).2 >>> sh) &&& 31 = 31 ∧
    1 &&& (asmTokens tbl c2 (mkTokens m a t1 t2 t3)).2 ≠ 0 ∧
    (asmTokens tbl c2 (mkTokens m a t1 t2 t3)).1 = c2 + 1 := by
  intro m a p sh hmem tbl c2 t1 t2 t3 hreg
  simp only [regFieldTable, List.mem_cons, List.not_mem_nil, or_false, Prod.mk.injEq] at hmem
  rcases hmem with ⟨rfl, rfl, rfl, rfl⟩ |
    ⟨rfl, rfl, rfl, rfl⟩ |
    ⟨rfl, rfl, rfl, rfl⟩ |
    ⟨rfl, rfl, rfl, rfl⟩ |
    ⟨rfl, rfl, rfl, rfl⟩ |
    ⟨rfl, rfl, rfl, rfl⟩ |
    ⟨rfl, rfl, rfl, rfl⟩ |
    ⟨rfl, rfl, rfl, rfl⟩ |
    ⟨rfl, rfl, rfl, rfl⟩ |
    ⟨rfl, rfl, rfl, rfl⟩ |
    ⟨rfl, rfl, rfl, rfl⟩ |
    ⟨rfl, rfl, rfl, rfl⟩ |
    ⟨rfl, rfl, rfl, rfl⟩ |
    ⟨rfl, rfl, rfl, rfl⟩ |
    ⟨rfl, rfl, rfl, rfl⟩ |
    ⟨rfl, rfl, rfl, rfl⟩ |
    ⟨rfl, rfl, rfl, rfl⟩ |
    ⟨rfl, rfl, rfl, rfl⟩ |
    ⟨rfl, rfl, rfl, rfl⟩ |
    ⟨rfl, rfl, rfl, rfl⟩ |
    ⟨rfl, rfl, rfl, rfl⟩ |
    ⟨rfl, rfl, rfl, rfl⟩ |
    ⟨rfl, rfl, rfl, rfl⟩ |
    ⟨rfl, rfl, rfl, rfl⟩ |
    ⟨rfl, rfl, rfl, rfl⟩ |
    ⟨rfl, rfl, rfl, rfl⟩ |
    ⟨rfl, rfl, rfl, rfl⟩ |
    ⟨rfl, rfl, rfl, rfl⟩ |
    ⟨rfl, rfl, rfl, rfl⟩ |
    ⟨rfl, rfl, rfl, rfl⟩ |
    ⟨rfl, rfl, rfl, rfl⟩ |
    ⟨rfl, rfl, rfl, rfl⟩ |
    ⟨rfl, rfl, rfl, rfl⟩ |
    ⟨rfl, rfl, rfl, rfl⟩ |
    ⟨rfl, rfl, rfl, rfl⟩ |
    ⟨rfl, rfl, rfl, rfl⟩ |
    ⟨rfl, rfl, rfl, rfl⟩ |
    ⟨rfl, rfl, rfl, rfl⟩ |
    ⟨rfl, rfl, rfl, rfl⟩ |
    ⟨rfl, rfl, rfl, rfl⟩ |
    ⟨rfl, rfl, rfl, rfl⟩ |
    ⟨rfl, rfl, rfl, rfl⟩ |
    ⟨rfl, rfl, rfl, rfl⟩ |
    ⟨rfl, rfl, rfl, rfl⟩ |
    ⟨rfl, rfl, rfl, rfl⟩ |
    ⟨rfl, rfl, rfl, rfl⟩ |
    ⟨rfl, rfl, rfl, rfl⟩ |
    ⟨rfl, rfl, rfl, rfl⟩ |
    ⟨rfl, rfl, rfl, rfl⟩ |
    ⟨rfl, rfl, rfl, rfl⟩ |
    ⟨rfl, rfl, rfl, rfl⟩ |
    ⟨rfl, rfl, rfl, rfl⟩ |
    ⟨rfl, rfl, rfl, rfl⟩ |
    ⟨rfl, rfl, rfl, rfl⟩ |
    ⟨rfl, rfl, rfl, rfl⟩ |
    ⟨rfl, rfl, rfl, rfl⟩ |
    ⟨rfl, rfl, rfl, rfl⟩ |
    ⟨rfl, rfl, rfl, rfl⟩ |
    ⟨rfl, rfl, rfl, rfl⟩ |
    ⟨rfl, rfl, rfl, rfl⟩ |
    ⟨rfl, rfl, rfl, rfl⟩ |
    ⟨rfl, rfl, rfl, rfl⟩ |
    ⟨rfl, rfl, rfl, rfl⟩ |
    ⟨rfl, rfl, rfl, rfl⟩ |
    ⟨rfl, rfl, rfl, rfl⟩ |
    ⟨rfl, rfl, rfl, rfl⟩ |
    ⟨rfl, rfl, rfl, rfl⟩ |
    ⟨rfl, rfl, rfl, rfl⟩ |
    ⟨rfl, rfl, rfl, rfl⟩ |
    ⟨rfl, rfl, rfl, rfl⟩ |
    ⟨rfl, rfl, rfl, rfl⟩ |
    ⟨rfl, rfl, rfl, rfl⟩ |
    ⟨rfl, rfl, rfl, rfl⟩ |
    ⟨rfl, rfl, rfl, rfl⟩ |
    ⟨rfl, rfl, rfl, rfl⟩ |
    ⟨rfl, rfl, rfl, rfl⟩ |
    ⟨rfl, rfl, rfl, rfl⟩ |
    ⟨rfl, rfl, rfl, rfl⟩ |
    ⟨rfl, rfl, rfl, rfl⟩ |
    ⟨rfl, rfl, rfl, rfl⟩ |
    ⟨rfl, rfl, rfl, rfl⟩
  · simp only [pickTok] at hreg
    simp only [mkTokens]
    rw [asmTokens_add, hreg, ui8_neg_one]
    exact ⟨encR_rd_field _ _ _ _ _, encR_odd _ _ _ _ _ _ (by decide), rfl⟩
  · simp only [pickTok] at hreg
    simp only [mkTokens]
    rw [asmTokens_add, hreg, ui8_neg_one]
    exact ⟨encR_rs1_field _ _ _ _ _, encR_odd _ _ _ _ _ _ (by decide), rfl⟩
  · simp only [pickTok] at hreg
    simp only [mkTokens]
    rw [asmTokens_add, hreg, ui8_neg_one]
    exact ⟨encR_rs2_field _ _ _ _ _, encR_odd _ _ _ _ _ _ (by decide), rfl⟩
  · simp only [pickTok] at hreg
    simp only [mkTokens]
    rw [asmTokens_sub, hreg, ui8_neg_one]
    exact ⟨encR_rd_field _ _ _ _ _, encR_odd _ _ _ _ _ _ (by decide), rfl⟩
  · simp only [pickTok] at hreg
    simp only [mkTokens]
    rw [asmTokens_sub, hreg, ui8_neg_one]
    exact ⟨encR_rs1_field _ _ _ _ _, encR_odd _ _ _ _ _ _ (by decide), rfl⟩
  · simp only [pickTok] at hreg
    simp only [mkTokens]
    rw [asmTokens_sub, hreg, ui8_neg_one]
    exact ⟨encR_rs2_field _ _ _ _ _, encR_odd _ _ _ _ _ _ (by decide), rfl⟩
  · simp only [pickTok] at hreg
    simp only [mkTokens]
    rw [asmTokens_or, hreg, ui8_neg_one]
    exact ⟨encR_rd_field _ _ _ _ _, encR_odd _ _ _ _ _ _ (by decide), rfl⟩
  · simp only [pickTok] at hreg
    simp only [mkTokens]
    rw [asmTokens_or, hreg, ui8_neg_one]
    exact ⟨encR_rs1_field _ _ _ _ _, encR_odd _ _ _ _ _ _ (by decide), rfl⟩
  · simp only [pickTok] at hreg
    simp only [mkTokens]
    rw [asmTokens_or, hreg, ui8_neg_one]
    exact ⟨encR_rs2_field _ _ _ _ _, encR_odd _ _ _ _ _ _ (by decide), rfl⟩
  · simp only [pickTok] at hreg
    simp only [mkTokens]
    rw [asmTokens_and, hreg, ui8_neg_one]
    exact ⟨encR_rd_field _ _ _ _ _, encR_odd _ _ _ _ _ _ (by decide), rfl⟩
  · simp only [pickTok] at hreg
    simp only [mkTokens]
    rw [asmTokens_and, hreg, ui8_neg_one]
    exact ⟨encR_rs1_field _ _ _ _ _, encR_odd _ _ _ _ _ _ (by decide), rfl⟩
  · simp only [pickTok] at hreg
    simp only [mkTokens]
    rw [asmTokens_and, hreg, ui8_neg_one]
    exact ⟨encR_rs2_field _ _ _ _ _, encR_odd _ _ _ _ _ _ (by decide), rfl⟩
  · simp only [pickTok] at hreg
    simp only [mkTokens]
    rw [asmTokens_xor, hreg, ui8_neg_one]
    exact ⟨encR_rd_field _ _ _ _ _, encR_odd _ _ _ _ _ _ (by decide), rfl⟩
  · simp only [pickTok] at hreg
    simp only [mkTokens]
    rw [asmTokens_xor, hreg, ui8_neg_one]
    exact ⟨encR_rs1_field _ _ _ _ _, encR_odd _ _ _ _ _ _ (by decide), rfl⟩
  · simp only [pickTok] at hreg
    simp only [mkTokens]
    rw [asmTokens_xor, hreg, ui8_neg_one]
    exact ⟨encR_rs2_field _ _ _ _ _, encR_odd _ _ _ _ _ _ (by decide), rfl⟩
  · simp only [pickTok] at hreg
    simp only [mkTokens]
    rw [asmTokens_sll, hreg, ui8_neg_one]
    exact ⟨encR_rd_field _ _ _ _ _, encR_odd _ _ _ _ _ _ (by decide), rfl⟩
  · simp only [pickTok] at hreg
    simp only [mkTokens]
    rw [asmTokens_sll, hreg, ui8_neg_one]
    exact ⟨encR_rs1_field _ _ _ _ _, encR_odd _ _ _ _ _ _ (by decide), rfl⟩
  · simp only [pickTok] at hreg
    simp only [mkTokens]
    rw [asmTokens_sll, hreg, ui8_neg_one]
    exact ⟨encR_rs2_field _ _ _ _ _, encR_odd _ _ _ _ _ _ (by decide), rfl⟩
  · simp only [pickTok] at hreg
    simp only [mkTokens]
    rw [asmTokens_srl, hreg, ui8_neg_one]
    exact ⟨encR_rd_field _ _ _ _ _, encR_odd _ _ _ _ _ _ (by decide), rfl⟩
  · simp only [pickTok] at hreg
    simp only [mkTokens]
    rw [asmTokens_srl, hreg, ui8_neg_one]
    exact ⟨encR_rs1_field _ _ _ _ _, encR_odd _ _ _ _ _ _ (by decide), rfl⟩
  · simp only [pickTok] at hreg
    simp only [mkTokens]
    rw [asmTokens_srl, hreg, ui8_neg_one]
    exact ⟨encR_rs2_field _ _ _ _ _, encR_odd _ _ _ _ _ _ (by decide), rfl⟩
  · simp only [pickTok] at hreg
    simp only [mkTokens]
    rw [asmTokens_sra, hreg, ui8_neg_one]
    exact ⟨encR_rd_field _ _ _ _ _, encR_odd _ _ _ _ _ _ (by decide), rfl⟩
  · simp only [pickTok] at hreg
    simp only [mkTokens]
    rw [asmTokens_sra, hreg, ui8_neg_one]
    exact ⟨encR_rs1_field _ _ _ _ _, encR_odd _ _ _ _ _ _ (by decide), rfl⟩
  · simp only [pickTok] at hreg
    simp only [mkTokens]
    rw [asmTokens_sra, hreg, ui8_neg_one]
    exact ⟨encR_rs2_field _ _ _ _ _, encR_odd _ _ _ _ _ _ (by decide), rfl⟩
  · simp only [pickTok] at hreg
    simp only [mkTokens]
    rw [asmTokens_slt, hreg, ui8_neg_one]
    exact ⟨encR_rd_field _ _ _ _ _, encR_odd _ _ _ _ _ _ (by decide), rfl⟩
  · simp only [pickTok] at hreg
    simp only [mkTokens]
    rw [asmTokens_slt, hreg, ui8_neg_one]
    exact ⟨encR_rs1_field _ _ _ _ _, encR_odd _ _ _ _ _ _ (by decide), rfl⟩
  · simp only [pickTok] at hreg
    simp only [mkTokens]
    rw [asmTokens_slt, hreg, ui8_neg_one]
    exact ⟨encR_rs2_field _ _ _ _ _, encR_odd _ _ _ _ _ _ (by decide), rfl⟩
  · simp only [pickTok] at hreg
    simp only [mkTokens]
    rw [asmTokens_sltu, hreg, ui8_neg_one]
    exact ⟨encR_rd_field _ _ _ _ _, encR_odd _ _ _ _ _ _ (by decide), rfl⟩
  · simp only [pickTok] at hreg
    simp only [mkTokens]
    rw [asmTokens_sltu, hreg, ui8_neg_one]
    exact ⟨encR_rs1_field _ _ _ _ _, encR_odd _ _ _ _ _ _ (by decide), rfl⟩
  · simp only [pickTok] at hreg
    simp only [mkTokens]
    rw [asmTokens_sltu, hreg, ui8_neg_one]
    exact ⟨encR_rs2_field _ _ _ _ _, encR_odd _ _ _ _ _ _ (by decide), rfl⟩
  · simp only [pickTok] at hreg
    simp only [mkTokens]
    rw [asmTokens_addi, hreg, ui8_neg_one]
    exact ⟨encI_rd_field _ _ _ _, encI_odd _ _ _ _ _ (by decide), rfl⟩
  · simp only [pickTok] at hreg
    simp only [mkTokens]
    rw [asmTokens_addi, hreg, ui8_neg_one]
    exact ⟨encI_rs1_field _ _ _ _, encI_odd _ _ _ _ _ (by decide), rfl⟩
  · simp only [pickTok] at hreg
    simp only [mkTokens]
    rw [asmTokens_slli, hreg, ui8_neg_one]
    exact ⟨encIsh_rd_field _ _ _ _ _, encIsh_odd _ _ _ _ _ _ (by decide), rfl⟩
  · simp only [pickTok] at hreg
    simp only [mkTokens]
    rw [asmTokens_slli, hreg, ui8_neg_one]
    exact ⟨encIsh_rs1_field _ _ _ _ _, encIsh_odd _ _ _ _ _ _ (by decide), rfl⟩
  · simp only [pickTok] at hreg
    simp only [mkTokens]
    rw [asmTokens_slti, hreg, ui8_neg_one]
    exact ⟨encI_rd_field _ _ _ _, encI_odd _ _ _ _ _ (by decide), rfl⟩
  · simp only [pickTok] at hreg
    simp only [mkTokens]
    rw [asmTokens_slti, hreg, ui8_neg_one]
    exact ⟨encI_rs1_field _ _ _ _, encI_odd _ _ _ _ _ (by decide), rfl⟩
  · simp only [pickTok] at hreg
    simp only [mkTokens]
    rw [asmTokens_sltiu, hreg, ui8_neg_one]
    exact ⟨encI_rd_field _ _ _ _, encI_odd _ _ _ _ _ (by decide), rfl⟩
  · simp only [pickTok] at hreg
    simp only [mkTokens]
    rw [asmTokens_sltiu, hreg, ui8_neg_one]
    exact ⟨encI_rs1_field _ _ _ _, encI_odd _ _ _ _ _ (by decide), rfl⟩
  · simp only [pickTok] at hreg
    simp only [mkTokens]
    rw [asmTokens_xori, hreg, ui8_neg_one]
    exact ⟨encI_rd_field _ _ _ _, encI_odd _ _ _ _ _ (by decide), rfl⟩
  · simp only [pickTok] at hreg
    simp only [mkTokens]
    rw [asmTokens_xori, hreg, ui8_neg_one]
    exact ⟨encI_rs1_field _ _ _ _, encI_odd _ _ _ _ _ (by decide), rfl⟩
  · simp only [pickTok] at hreg
    simp only [mkTokens]
    rw [asmTokens_srli, hreg, ui8_neg_one]
    exact ⟨encIsh_rd_field _ _ _ _ _, encIsh_odd _ _ _ _ _ _ (by decide), rfl⟩
  · simp only [pickTok] at hreg
    simp only [mkTokens]
    rw [asmTokens_srli, hreg, ui8_neg_one]
    exact ⟨encIsh_rs1_field _ _ _ _ _, encIsh_odd _ _ _ _ _ _ (by decide), rfl⟩
  · simp only [pickTok] at hreg
    simp only [mkTokens]
    rw [asmTokens_srai, hreg, ui8_neg_one]
    exact ⟨encIsh_rd_field _ _ _ _ _, encIsh_odd _ _ _ _ _ _ (by decide), rfl⟩
  · simp only [pickTok] at hreg
    simp only [mkTokens]
    rw [asmTokens_srai, hreg, ui8_neg_one]
    exact ⟨encIsh_rs1_field _ _ _ _ _, encIsh_odd _ _ _ _ _ _ (by decide), rfl⟩
  · simp only [pickTok] at hreg
    simp only [mkTokens]
    rw [asmTokens_ori, hreg, ui8_neg_one]
    exact ⟨encI_rd_field _ _ _ _, encI_odd _ _ _ _ _ (by decide), rfl⟩
  · simp only [pickTok] at hreg
    simp only [mkTokens]
    rw [asmTokens_ori, hreg, ui8_neg_one]
    exact ⟨encI_rs1_field _ _ _ _, encI_odd _ _ _ _ _ (by decide), rfl⟩
  · simp only [pickTok] at hreg
    simp only [mkTokens]
    rw [asmTokens_andi, hreg, ui8_neg_one]
    exact ⟨encI_rd_field _ _ _ _, encI_odd _ _ _ _ _ (by decide), rfl⟩
  · simp only [pickTok] at hreg
    simp only [mkTokens]
    rw [asmTokens_andi, hreg, ui8_neg_one]
    exact ⟨encI_rs1_field _ _ _ _, encI_odd _ _ _ _ _ (by decide), rfl⟩
  · simp only [pickTok] at hreg
    simp only [mkTokens]
    rw [asmTokens_jalr, hreg, ui8_neg_one]
    exact ⟨encI_rd_field _ _ _ _, encI_odd _ _ _ _ _ (by decide), rfl⟩
  · simp only [pickTok] at hreg
    simp only [mkTokens]
    rw [asmTokens_jalr, hreg, ui8_neg_one]
    exact ⟨encI_rs1_field _ _ _ _, encI_odd _ _ _ _ _ (by decide), rfl⟩
  · simp only [pickTok] at hreg
    simp only [mkTokens]
    rw [asmTokens_beq, hreg, ui8_neg_one]
    exact ⟨encB_rs1_field _ _ _ _, encB_odd _ _ _ _ _, rfl⟩
  · simp only [pickTok] at hreg
    simp only [mkTokens]
    rw [asmTokens_beq, hreg, ui8_neg_one]
    exact ⟨encB_rs2_field _ _ _ _, encB_odd _ _ _ _ _, rfl⟩
  · simp only [pickTok] at hreg
    simp only [mkTokens]
    rw [asmTokens_bne, hreg, ui8_neg_one]
    exact ⟨encB_rs1_field _ _ _ _, encB_odd _ _ _ _ _, rfl⟩
  · simp only [pickTok] at hreg
    simp only [mkTokens]
    rw [asmTokens_bne, hreg, ui8_neg_one]
    exact ⟨encB_rs2_field _ _ _ _, encB_odd _ _ _ _ _, rfl⟩
  · simp only [pickTok] at hreg
    simp only [mkTokens]
    rw [asmTokens_blt, hreg, ui8_neg_one]
    exact ⟨encB_rs1_field _ _ _ _, encB_odd _ _ _ _ _, rfl⟩
  · simp only [pickTok] at hreg
    simp only [mkTokens]
    rw [asmTokens_blt, hreg, ui8_neg_one]
    exact ⟨encB_rs2_field _ _ _ _, encB_odd _ _ _ _ _, rfl⟩
  · simp only [pickTok] at hreg
    simp only [mkTokens]
    rw [asmTokens_bge, hreg, ui8_neg_one]
    exact ⟨encB_rs1_field _ _ _ _, encB_odd _ _ _ _ _, rfl⟩
  · simp only [pickTok] at hreg
    simp only [mkTokens]
    rw [asmTokens_bge, hreg, ui8_neg_one]
    exact ⟨encB_rs2_field _ _ _ _, encB_odd _ _ _ _ _, rfl⟩
  · simp only [pickTok] at hreg
    simp only [mkTokens]
    rw [asmTokens_bltu, hreg, ui8_neg_one]
    exact ⟨encB_rs1_field _ _ _ _, encB_odd _ _ _ _ _, rfl⟩
  · simp only [pickTok] at hreg
    simp only [mkTokens]
    rw [asmTokens_bltu, hreg, ui8_neg_one]
    exact ⟨encB_rs2_field _ _ _ _, encB_odd _ _ _ _ _, rfl⟩
  · simp only [pickTok] at hreg
    simp only [mkTokens]
    rw [asmTokens_bgeu, hreg, ui8_neg_one]
    exact ⟨encB_rs1_field _ _ _ _, encB_odd _ _ _ _ _, rfl⟩
  · simp only [pickTok] at hreg
    simp only [mkTokens]
    rw [asmTokens_bgeu, hreg, ui8_neg_one]
    exact ⟨encB_rs2_field _ _ _ _, encB_odd _ _ _ _ _, rfl⟩
  · simp only [pickTok] at hreg
    simp only [mkTokens]
    rw [asmTokens_bgt, hreg, ui8_neg_one]
    exact ⟨encB_rs2_field _ _ _ _, encB_odd _ _ _ _ _, rfl⟩
  · simp only [pickTok] at hreg
    simp only [mkTokens]
    rw [asmTokens_bgt, hreg, ui8_neg_one]
    exact ⟨encB_rs1_field _ _ _ _, encB_odd _ _ _ _ _, rfl⟩
  · simp only [pickTok] at hreg
    simp only [mkTokens]
    rw [asmTokens_ble, hreg, ui8_neg_one]
    exact ⟨encB_rs2_field _ _ _ _, encB_odd _ _ _ _ _, rfl⟩
  · simp only [pickTok] at hreg
    simp only [mkTokens]
    rw [asmTokens_ble, hreg, ui8_neg_one]
    exact ⟨encB_rs1_field _ _ _ _, encB_odd _ _ _ _ _, rfl⟩
  · simp only [pickTok] at hreg
    simp only [mkTokens]
    rw [asmTokens_lb, hreg, ui8_neg_one]
    exact ⟨encI_rd_field _ _ _ _, encI_odd _ _ _ _ _ (by decide), rfl⟩
  · simp only [pickTok] at hreg
    simp only [mkTokens]
    rw [asmTokens_lh, hreg, ui8_neg_one]
    exact ⟨encI_rd_field _ _ _ _, encI_odd _ _ _ _ _ (by decide), rfl⟩
  · simp only [pickTok] at hreg
    simp only [mkTokens]
    rw [asmTokens_lw, hreg, ui8_neg_one]
    exact ⟨encI_rd_field _ _ _ _, encI_odd _ _ _ _ _ (by decide), rfl⟩
  · simp only [pickTok] at hreg
    simp only [mkTokens]
    rw [asmTokens_lbu, hreg, ui8_neg_one]
    exact ⟨encI_rd_field _ _ _ _, encI_odd _ _ _ _ _ (by decide), rfl⟩
  · simp only [pickTok] at hreg
    simp only [mkTokens]
    rw [asmTokens_lhu, hreg, ui8_neg_one]
    exact ⟨encI_rd_field _ _ _ _, encI_odd _ _ _ _ _ (by decide), rfl⟩
  · simp only [pickTok] at hreg
    simp only [mkTokens]
    rw [asmTokens_sb, hreg, ui8_neg_one]
    exact ⟨encS_rs2_field _ _ _, encS_odd _ _ _ _, rfl⟩
  · simp only [pickTok] at hreg
    simp only [mkTokens]
    rw [asmTokens_sh, hreg, ui8_neg_one]
    exact ⟨encS_rs2_field _ _ _, encS_odd _ _ _ _, rfl⟩
  · simp only [pickTok] at hreg
    simp only [mkTokens]
    rw [asmTokens_sw, hreg, ui8_neg_one]
    exact ⟨encS_rs2_field _ _ _, encS_odd _ _ _ _, rfl⟩
  · simp only [pickTok] at hreg
    simp only [mkTokens]
    rw [asmTokens_auipc, hreg, ui8_neg_one]
    exact ⟨encU_rd_field _ _, encU_odd _ _ _ (by decide), rfl⟩
  · simp only [pickTok] at hreg
    simp only [mkTokens]
    rw [asmTokens_lui, hreg, ui8_neg_one]
    exact ⟨encU_rd_field _ _, encU_odd _ _ _ (by decide), rfl⟩
  · simp only [pickTok] at hreg
    simp only [mkTokens]
    rw [asmTokens_jal, hreg, ui8_neg_one]
    exact ⟨encJ_rd_field _, encJ_odd _ _, rfl⟩
  · simp only [pickTok] at hreg
    simp only [mkTokens]
    rw [asmTokens_li, hreg, ui8_neg_one]
    exact ⟨encI_rd_field _ _ _ _, encI_odd _ _ _ _ _ (by decide), rfl⟩
  · simp only [pickTok] at hreg
    simp only [mkTokens]
    rw [asmTokens_mv, hreg, ui8_neg_one]
    exact ⟨encR_rd_field _ _ _ _ _, encR_odd _ _ _ _ _ _ (by decide), rfl⟩
  · simp only [pickTok] at hreg
    simp only [mkTokens]
    rw [asmTokens_mv, hreg, ui8_neg_one]
    exact ⟨encR_rs1_field _ _ _ _ _, encR_odd _ _ _ _ _ _ (by decide), rfl⟩
  · simp only [pickTok] at hreg
    simp only [mkTokens]
    rw [asmTokens_jr, hreg, ui8_neg_one]
    exact ⟨encI_rs1_field _ _ _ _, encI_odd _ _ _ _ _ (by decide), rfl⟩

/-- Concrete instantiation of `c10`: `add` with the invalid register name
`bogus` in the rd position. -/
theorem c10_witness :
    ((asmTokens [] 0 (mkTokens "add" 4 "bogus" "x2" "x3")).2 >>> 7) &&& 31 = 31 ∧
    1 &&& (asmTokens [] 0 (mkTokens "add" 4 "bogus" "x2" "x3")).2 ≠ 0 ∧
    (asmTokens [] 0 (mkTokens "add" 4 "bogus" "x2" "x3")).1 = 0 + 1 :=
  c10 "add" 4 1 7 (by decide) [] 0 "bogus" "x2" "x3" (by decide)

end RiscvAsm

namespace RiscvAsm

/-- The four-token mnemonic set of `first_pass` and `assemble_instruction`:
R-type, I-type arithmetic, and jalr/branches. -/
def mnems4 : List String := rList ++ iList ++ bList

/-- The three-token mnemonic set: memory, auipc/lui/jal, and mv/li. -/
def mnems3 : List String := memList ++ ujList ++ mvliList

/-- Spec-side predicate: a token list is a recognised instruction when its
mnemonic is in the supported set for its operand count (spec section 4.3). -/
def recognisedTokens (ts : List String) : Bool :=
  decide (ts.length = 4 ∧ ts.getD 0 "" ∈ mnems4) ||
  decide (ts.length = 3 ∧ ts.getD 0 "" ∈ mnems3) ||
  decide (ts.length = 2 ∧ (ts.getD 0 "" = "j" ∨ ts.getD 0 "" = "jr")) ||
  decide (ts.length = 1 ∧ ts.getD 0 "" = "ret")

set_option maxHeartbeats 2000000 in
/-- One token dispatch of pass one: the counter rises exactly on recognised
token lists. -/
lemma fp_step (ts : List String) (c : Nat) :
    fpTokens ts c = c + (if recognisedTokens ts then 1 else 0) := by
  unfold fpTokens
  by_cases hl4 : ts.length = 4
  · rw [if_pos hl4]
    by_cases h0 : ts.getD 0 "" ∈ rList
    · rw [if_pos h0]
      have hrec : recognisedTokens ts = true := by
        have hmem : ts.getD 0 "" ∈ mnems4 := by
          simp only [mnems4, List.mem_append]
          exact Or.inl (Or.inl h0)
        have hd : decide (ts.length = 4 ∧ ts.getD 0 "" ∈ mnems4) = true :=
          decide_eq_true ⟨hl4, hmem⟩
        simp only [recognisedTokens, hd, Bool.true_or]
      rw [hrec]
      rfl
    rw [if_neg h0]
    by_cases h1 : ts.getD 0 "" ∈ iList
    · rw [if_pos h1]
      have hrec : recognisedTokens ts = true := by
        have hmem : ts.getD 0 "" ∈ mnems4 := by
          simp only [mnems4, List.mem_append]
          exact Or.inl (Or.inr h1)
        have hd : decide (ts.length = 4 ∧ ts.getD 0 "" ∈ mnems4) = true :=
          decide_eq_true ⟨hl4, hmem⟩
        simp only [recognisedTokens, hd, Bool.true_or]
      rw [hrec]
      rfl
    rw [if_neg h1]
    by_cases h2 : ts.getD 0 "" ∈ bList
    · rw [if_pos h2]
      have hrec : recognisedTokens ts = true := by
        have hmem : ts.getD 0 "" ∈ mnems4 := by
          simp only [mnems4, List.mem_append]
          exact Or.inr h2
        have hd : decide (ts.length = 4 ∧ ts.getD 0 "" ∈ mnems4) = true :=
          decide_eq_true ⟨hl4, hmem⟩
        simp only [recognisedTokens, hd, Bool.true_or]
      rw [hrec]
      rfl
    rw [if_neg h2]
    have hrec : recognisedTokens ts = false := by
      have hmem : ts.getD 0 "" ∉ mnems4 := by
        simp only [mnems4, List.mem_append, not_or]
        exact ⟨⟨h0, h1⟩, h2⟩
      have hd1 : decide (ts.length = 4 ∧ ts.getD 0 "" ∈ mnems4) = false :=
        decide_eq_false (fun hc => hmem hc.2)
      have hd2 : decide (ts.length = 3 ∧ ts.getD 0 "" ∈ mnems3) = false :=
        decide_eq_false (fun hc => absurd hc.1 (by omega))
      have hd3 : decide (ts.length = 2 ∧ (ts.getD 0 "" = "j" ∨ ts.getD 0 "" = "jr")) = false :=
        decide_eq_false (fun hc => absurd hc.1 (by omega))
      have hd4 : decide (ts.length = 1 ∧ ts.getD 0 "" = "ret") = false :=
        decide_eq_false (fun hc => absurd hc.1 (by omega))
      simp only [recognisedTokens, hd1, hd2, hd3, hd4, Bool.or_false]
    rw [hrec]
    rfl
  rw [if_neg hl4]
  by_cases hl3 : ts.length = 3
  · rw [if_pos hl3]
    by_cases h0 : ts.getD 0 "" ∈ memList
    · rw [if_pos h0]
      have hrec : recognisedTokens ts = true := by
        have hmem : ts.getD 0 "" ∈ mnems3 := by
          simp only [mnems3, List.mem_append]
          exact Or.inl (Or.inl h0)
        have hd : decide (ts.length = 3 ∧ ts.getD 0 "" ∈ mnems3) = true :=
          decide_eq_true ⟨hl3, hmem⟩
        simp only [recognisedTokens, hd, Bool.true_or, Bool.or_true]
      rw [hrec]
      rfl
    rw [if_neg h0]
    by_cases h1 : ts.getD 0 "" ∈ ujList
    · rw [if_pos h1]
      have hrec : recognisedTokens ts = true := by
        have hmem : ts.getD 0 "" ∈ mnems3 := by
          simp only [mnems3, List.mem_append]
          exact Or.inl (Or.inr h1)
        have hd : decide (ts.length = 3 ∧ ts.getD 0 "" ∈ mnems3) = true :=
          decide_eq_true ⟨hl3, hmem⟩
        simp only [recognisedTokens, hd, Bool.true_or, Bool.or_true]
      rw [hrec]
      rfl
    rw [if_neg h1]
    by_cases h2 : ts.getD 0 "" ∈ mvliList
    · rw [if_pos h2]
      have hrec : recognisedTokens ts = true := by
        have hmem : ts.getD 0 "" ∈ mnems3 := by
          simp only [mnems3, List.mem_append]
          exact Or.inr h2
        have hd : decide (ts.length = 3 ∧ ts.getD 0 "" ∈ mnems3) = true :=
          decide_eq_true ⟨hl3, hmem⟩
        simp only [recognisedTokens, hd, Bool.true_or, Bool.or_true]
      rw [hrec]
      rfl
    rw [if_neg h2]
    have hrec : recognisedTokens ts = false := by
      have hmem : ts.getD 0 "" ∉ mnems3 := by
        simp only [mnems3, List.mem_append, not_or]
        exact ⟨⟨h0, h1⟩, h2⟩
      have hd1 : decide (ts.length = 4 ∧ ts.getD 0 "" ∈ mnems4) = false :=
        decide_eq_false (fun hc => absurd hc.1 (by omega))
      have hd2 : decide (ts.length = 3 ∧ ts.getD 0 "" ∈ mnems3) = false :=
        decide_eq_false (fun hc => hmem hc.2)
      have hd3 : decide (ts.length = 2 ∧ (ts.getD 0 "" = "j" ∨ ts.getD 0 "" = "jr")) = false :=
        decide_eq_false (fun hc => absurd hc.1 (by omega))
      have hd4 : decide (ts.length = 1 ∧ ts.getD 0 "" = "ret") = false :=
        decide_eq_false (fun hc => absurd hc.1 (by omega))
      simp only [recognisedTokens, hd1, hd2, hd3, hd4, Bool.or_false]
    rw [hrec]
    rfl
  rw [if_neg hl3]
  by_cases hl2 : ts.length = 2
  · rw [if_pos hl2]
    by_cases hj : ts.getD 0 "" = "j" ∨ ts.getD 0 "" = "jr"
    · rw [if_pos hj]
      have hrec : recognisedTokens ts = true := by
        have hd : decide (ts.length = 2 ∧ (ts.getD 0 "" = "j" ∨ ts.getD 0 "" = "jr")) = true :=
          decide_eq_true ⟨hl2, hj⟩
        simp only [recognisedTokens, hd, Bool.true_or, Bool.or_true]
      rw [hrec]
      rfl
    rw [if_neg hj]
    have hrec : recognisedTokens ts = false := by
      have hd1 : decide (ts.length = 4 ∧ ts.getD 0 "" ∈ mnems4) = false :=
        decide_eq_false (fun hc => absurd hc.1 (by omega))
      have hd2 : decide (ts.length = 3 ∧ ts.getD 0 "" ∈ mnems3) = false :=
        decide_eq_false (fun hc => absurd hc.1 (by omega))
      have hd3 : decide (ts.length = 2 ∧ (ts.getD 0 "" = "j" ∨ ts.getD 0 "" = "jr")) = false :=
        decide_eq_false (fun hc => hj hc.2)
      have hd4 : decide (ts.length = 1 ∧ ts.getD 0 "" = "ret") = false :=
        decide_eq_false (fun hc => absurd hc.1 (by omega))
      simp only [recognisedTokens, hd1, hd2, hd3, hd4, Bool.or_false]
    rw [hrec]
    rfl
  rw [if_neg hl2]
  by_cases hl1 : ts.length = 1
  · rw [if_pos hl1]
    by_cases hr : ts.getD 0 "" = "ret"
    · rw [if_pos hr]
      have hrec : recognisedTokens ts = true := by
        have hd : decide (ts.length = 1 ∧ ts.getD 0 "" = "ret") = true :=
          decide_eq_true ⟨hl1, hr⟩
        simp only [recognisedTokens, hd, Bool.or_true]
      rw [hrec]
      rfl
    rw [if_neg hr]
    have hrec : recognisedTokens ts = false := by
      have hd1 : decide (ts.length = 4 ∧ ts.getD 0 "" ∈ mnems4) = false :=
        decide_eq_false (fun hc => absurd hc.1 (by omega))
      have hd2 : decide (ts.length = 3 ∧ ts.getD 0 "" ∈ mnems3) = false :=
        decide_eq_false (fun hc => absurd hc.1 (by omega))
      have hd3 : decide (ts.length = 2 ∧ (ts.getD 0 "" = "j" ∨ ts.getD 0 "" = "jr")) = false :=
        decide_eq_false (fun hc => absurd hc.1 (by omega))
      have hd4 : decide (ts.length = 1 ∧ ts.getD 0 "" = "ret") = false :=
        decide_eq_false (fun hc => hr hc.2)
      simp only [recognisedTokens, hd1, hd2, hd3, hd4, Bool.or_false]
    rw [hrec]
    rfl
  rw [if_neg hl1]
  have hrec : recognisedTokens ts = false := by
    have hd1 : decide (ts.length = 4 ∧ ts.getD 0 "" ∈ mnems4) = false :=
      decide_eq_false (fun hc => hl4 hc.1)
    have hd2 : decide (ts.length = 3 ∧ ts.getD 0 "" ∈ mnems3) = false :=
      decide_eq_false (fun hc => hl3 hc.1)
    have hd3 : decide (ts.length = 2 ∧ (ts.getD 0 "" = "j" ∨ ts.getD 0 "" = "jr")) = false :=
      decide_eq_false (fun hc => hl2 hc.1)
    have hd4 : decide (ts.length = 1 ∧ ts.getD 0 "" = "ret") = false :=
      decide_eq_false (fun hc => hl1 hc.1)
    simp only [recognisedTokens, hd1, hd2, hd3, hd4, Bool.or_false]
  rw [hrec]
  rfl

set_option maxHeartbeats 4000000 in
/-- One token dispatch of pass two: the counter rises exactly on recognised
token lists, and the returned word has bit 0 set (hence is emitted by the
driver) exactly on recognised token lists. -/
lemma asm_step (tbl : LabelTable) (c : Nat) (ts : List String) :
    (asmTokens tbl c ts).1 = c + (if recognisedTokens ts then 1 else 0) ∧
    (1 &&& (asmTokens tbl c ts).2 ≠ 0 ↔ recognisedTokens ts = true) := by
  unfold asmTokens
  by_cases hl4 : ts.length = 4
  · rw [if_pos hl4]
    by_cases h4_0 : ts.getD 0 "" = "add"
    · rw [if_pos h4_0]
      have hrec : recognisedTokens ts = true := by
        simp only [recognisedTokens, hl4, h4_0]
        decide
      rw [hrec]
      exact ⟨rfl, iff_of_true (encR_odd _ _ _ _ _ _ (by decide)) rfl⟩
    rw [if_neg h4_0]
    by_cases h4_1 : ts.getD 0 "" = "sub"
    · rw [if_pos h4_1]
      have hrec : recognisedTokens ts = true := by
        simp only [recognisedTokens, hl4, h4_1]
        decide
      rw [hrec]
      exact ⟨rfl, iff_of_true (encR_odd _ _ _ _ _ _ (by decide)) rfl⟩
    rw [if_neg h4_1]
    by_cases h4_2 : ts.getD 0 "" = "or"
    · rw [if_pos h4_2]
      have hrec : recognisedTokens ts = true := by
        simp only [recognisedTokens, hl4, h4_2]
        decide
      rw [hrec]
      exact ⟨rfl, iff_of_true (encR_odd _ _ _ _ _ _ (by decide)) rfl⟩
    rw [if_neg h4_2]
    by_cases h4_3 : ts.getD 0 "" = "and"
    · rw [if_pos h4_3]
      have hrec : recognisedTokens ts = true := by
        simp only [recognisedTokens, hl4, h4_3]
        decide
      rw [hrec]
      exact ⟨rfl, iff_of_true (encR_odd _ _ _ _ _ _ (by decide)) rfl⟩
    rw [if_neg h4_3]
    by_cases h4_4 : ts.getD 0 "" = "xor"
    · rw [if_pos h4_4]
      have hrec : recognisedTokens ts = true := by
        simp only [recognisedTokens, hl4, h4_4]
        decide
      rw [hrec]
      exact ⟨rfl, iff_of_true (encR_odd _ _ _ _ _ _ (by decide)) rfl⟩
    rw [if_neg h4_4]
    by_cases h4_5 : ts.getD 0 "" = "sll"
    · rw [if_pos h4_5]
      have hrec : recognisedTokens ts = true := by
        simp only [recognisedTokens, hl4, h4_5]
        decide
      rw [hrec]
      exact ⟨rfl, iff_of_true (encR_odd _ _ _ _ _ _ (by decide)) rfl⟩
    rw [if_neg h4_5]
    by_cases h4_6 : ts.getD 0 "" = "srl"
    · rw [if_pos h4_6]
      have hrec : recognisedTokens ts = true := by
        simp only [recognisedTokens, hl4, h4_6]
        decide
      rw [hrec]
      exact ⟨rfl, iff_of_true (encR_odd _ _ _ _ _ _ (by decide)) rfl⟩
    rw [if_neg h4_6]
    by_cases h4_7 : ts.getD 0 "" = "sra"
    · rw [if_pos h4_7]
      have hrec : recognisedTokens ts = true := by
        simp only [recognisedTokens, hl4, h4_7]
        decide
      rw [hrec]
      exact ⟨rfl, iff_of_true (encR_odd _ _ _ _ _ _ (by decide)) rfl⟩
    rw [if_neg h4_7]
    by_cases h4_8 : ts.getD 0 "" = "slt"
    · rw [if_pos h4_8]
      have hrec : recognisedTokens ts = true := by
        simp only [recognisedTokens, hl4, h4_8]
        decide
      rw [hrec]
      exact ⟨rfl, iff_of_true (encR_odd _ _ _ _ _ _ (by decide)) rfl⟩
    rw [if_neg h4_8]
    by_cases h4_9 : ts.getD 0 "" = "sltu"
    · rw [if_pos h4_9]
      have hrec : recognisedTokens ts = true := by
        simp only [recognisedTokens, hl4, h4_9]
        decide
      rw [hrec]
      exact ⟨rfl, iff_of_true (encR_odd _ _ _ _ _ _ (by decide)) rfl⟩
    rw [if_neg h4_9]
    by_cases h4_10 : ts.getD 0 "" = "addi"
    · rw [if_pos h4_10]
      have hrec : recognisedTokens ts = true := by
        simp only [recognisedTokens, hl4, h4_10]
        decide
      rw [hrec]
      exact ⟨rfl, iff_of_true (encI_odd _ _ _ _ _ (by decide)) rfl⟩
    rw [if_neg h4_10]
    by_cases h4_11 : ts.getD 0 "" = "slli"
    · rw [if_pos h4_11]
      have hrec : recognisedTokens ts = true := by
        simp only [recognisedTokens, hl4, h4_11]
        decide
      rw [hrec]
      exact ⟨rfl, iff_of_true (encIsh_odd _ _ _ _ _ _ (by decide)) rfl⟩
    rw [if_neg h4_11]
    by_cases h4_12 : ts.getD 0 "" = "slti"
    · rw [if_pos h4_12]
      have hrec : recognisedTokens ts = true := by
        simp only [recognisedTokens, hl4, h4_12]
        decide
      rw [hrec]
      exact ⟨rfl, iff_of_true (encI_odd _ _ _ _ _ (by decide)) rfl⟩
    rw [if_neg h4_12]
    by_cases h4_13 : ts.getD 0 "" = "sltiu"
    · rw [if_pos h4_13]
      have hrec : recognisedTokens ts = true := by
        simp only [recognisedTokens, hl4, h4_13]
        decide
      rw [hrec]
      exact ⟨rfl, iff_of_true (encI_odd _ _ _ _ _ (by decide)) rfl⟩
    rw [if_neg h4_13]
    by_cases h4_14 : ts.getD 0 "" = "xori"
    · rw [if_pos h4_14]
      have hrec : recognisedTokens ts = true := by
        simp only [recognisedTokens, hl4, h4_14]
        decide
      rw [hrec]
      exact ⟨rfl, iff_of_true (encI_odd _ _ _ _ _ (by decide)) rfl⟩
    rw [if_neg h4_14]
    by_cases h4_15 : ts.getD 0 "" = "srli"
    · rw [if_pos h4_15]
      have hrec : recognisedTokens ts = true := by
        simp only [recognisedTokens, hl4, h4_15]
        decide
      rw [hrec]
      exact ⟨rfl, iff_of_true (encIsh_odd _ _ _ _ _ _ (by decide)) rfl⟩
    rw [if_neg h4_15]
    by_cases h4_16 : ts.getD 0 "" = "srai"
    · rw [if_pos h4_16]
      have hrec : recognisedTokens ts = true := by
        simp only [recognisedTokens, hl4, h4_16]
        decide
      rw [hrec]
      exact ⟨rfl, iff_of_true (encIsh_odd _ _ _ _ _ _ (by decide)) rfl⟩
    rw [if_neg h4_16]
    by_cases h4_17 : ts.getD 0 "" = "ori"
    · rw [if_pos h4_17]
      have hrec : recognisedTokens ts = true := by
        simp only [recognisedTokens, hl4, h4_17]
        decide
      rw [hrec]
      exact ⟨rfl, iff_of_true (encI_odd _ _ _ _ _ (by decide)) rfl⟩
    rw [if_neg h4_17]
    by_cases h4_18 : ts.getD 0 "" = "andi"
    · rw [if_pos h4_18]
      have hrec : recognisedTokens ts = true := by
        simp only [recognisedTokens, hl4, h4_18]
        decide
      rw [hrec]
      exact ⟨rfl, iff_of_true (encI_odd _ _ _ _ _ (by decide)) rfl⟩
    rw [if_neg h4_18]
    by_cases h4_19 : ts.getD 0 "" = "jalr"
    · rw [if_pos h4_19]
      have hrec : recognisedTokens ts = true := by
        simp only [recognisedTokens, hl4, h4_19]
        decide
      rw [hrec]
      exact ⟨rfl, iff_of_true (encI_odd _ _ _ _ _ (by decide)) rfl⟩
    rw [if_neg h4_19]
    by_cases h4_20 : ts.getD 0 "" = "beq"
    · rw [if_pos h4_20]
      have hrec : recognisedTokens ts = true := by
        simp only [recognisedTokens, hl4, h4_20]
        decide
      rw [hrec]
      exact ⟨rfl, iff_of_true (encB_odd _ _ _ _ _) rfl⟩
    rw [if_neg h4_20]
    by_cases h4_21 : ts.getD 0 "" = "bne"
    · rw [if_pos h4_21]
      have hrec : recognisedTokens ts = true := by
        simp only [recognisedTokens, hl4, h4_21]
        decide
      rw [hrec]
      exact ⟨rfl, iff_of_true (encB_odd _ _ _ _ _) rfl⟩
    rw [if_neg h4_21]
    by_cases h4_22 : ts.getD 0 "" = "blt"
    · rw [if_pos h4_22]
      have hrec : recognisedTokens ts = true := by
        simp only [recognisedTokens, hl4, h4_22]
        decide
      rw [hrec]
      exact ⟨rfl, iff_of_true (encB_odd _ _ _ _ _) rfl⟩
    rw [if_neg h4_22]
    by_cases h4_23 : ts.getD 0 "" = "bgt"
    · rw [if_pos h4_23]
      have hrec : recognisedTokens ts = true := by
        simp only [recognisedTokens, hl4, h4_23]
        decide
      rw [hrec]
      exact ⟨rfl, iff_of_true (encB_odd _ _ _ _ _) rfl⟩
    rw [if_neg h4_23]
    by_cases h4_24 : ts.getD 0 "" = "bge"
    · rw [if_pos h4_24]
      have hrec : recognisedTokens ts = true := by
        simp only [recognisedTokens, hl4, h4_24]
        decide
      rw [hrec]
      exact ⟨rfl, iff_of_true (encB_odd _ _ _ _ _) rfl⟩
    rw [if_neg h4_24]
    by_cases h4_25 : ts.getD 0 "" = "ble"
    · rw [if_pos h4_25]
      have hrec : recognisedTokens ts = true := by
        simp only [recognisedTokens, hl4, h4_25]
        decide
      rw [hrec]
      exact ⟨rfl, iff_of_true (encB_odd _ _ _ _ _) rfl⟩
    rw [if_neg h4_25]
    by_cases h4_26 : ts.getD 0 "" = "bltu"
    · rw [if_pos h4_26]
      have hrec : recognisedTokens ts = true := by
        simp only [recognisedTokens, hl4, h4_26]
        decide
      rw [hrec]
      exact ⟨rfl, iff_of_true (encB_odd _ _ _ _ _) rfl⟩
    rw [if_neg h4_26]
    by_cases h4_27 : ts.getD 0 "" = "bgeu"
    · rw [if_pos h4_27]
      have hrec : recognisedTokens ts = true := by
        simp only [recognisedTokens, hl4, h4_27]
        decide
      rw [hrec]
      exact ⟨rfl, iff_of_true (encB_odd _ _ _ _ _) rfl⟩
    rw [if_neg h4_27]
    have hrec : recognisedTokens ts = false := by
      simp only [recognisedTokens, hl4]
      simp_all [mnems4, mnems3, rList, iList, bList, memList, ujList, mvliList]
    rw [hrec]
    exact ⟨rfl, iff_of_false (by simp) (by decide)⟩
  rw [if_neg hl4]
  by_cases hl3 : ts.length = 3
  · rw [if_pos hl3]
    by_cases h3_0 : ts.getD 0 "" = "lb"
    · rw [if_pos h3_0]
      have hrec : recognisedTokens ts = true := by
        simp only [recognisedTokens, hl3, h3_0]
        decide
      rw [hrec]
      exact ⟨rfl, iff_of_true (encI_odd _ _ _ _ _ (by decide)) rfl⟩
    rw [if_neg h3_0]
    by_cases h3_1 : ts.getD 0 "" = "lh"
    · rw [if_pos h3_1]
      have hrec : recognisedTokens ts = true := by
        simp only [recognisedTokens, hl3, h3_1]
        decide
      rw [hrec]
      exact ⟨rfl, iff_of_true (encI_odd _ _ _ _ _ (by decide)) rfl⟩
    rw [if_neg h3_1]
    by_cases h3_2 : ts.getD 0 "" = "lw"
    · rw [if_pos h3_2]
      have hrec : recognisedTokens ts = true := by
        simp only [recognisedTokens, hl3, h3_2]
        decide
      rw [hrec]
      exact ⟨rfl, iff_of_true (encI_odd _ _ _ _ _ (by decide)) rfl⟩
    rw [if_neg h3_2]
    by_cases h3_3 : ts.getD 0 "" = "lbu"
    · rw [if_pos h3_3]
      have hrec : recognisedTokens ts = true := by
        simp only [recognisedTokens, hl3, h3_3]
        decide
      rw [hrec]
      exact ⟨rfl, iff_of_true (encI_odd _ _ _ _ _ (by decide)) rfl⟩
    rw [if_neg h3_3]
    by_cases h3_4 : ts.getD 0 "" = "lhu"
    · rw [if_pos h3_4]
      have hrec : recognisedTokens ts = true := by
        simp only [recognisedTokens, hl3, h3_4]
        decide
      rw [hrec]
      exact ⟨rfl, iff_of_true (encI_odd _ _ _ _ _ (by decide)) rfl⟩
    rw [if_neg h3_4]
    by_cases h3_5 : ts.getD 0 "" = "sb"
    · rw [if_pos h3_5]
      have hrec : recognisedTokens ts = true := by
        simp only [recognisedTokens, hl3, h3_5]
        decide
      rw [hrec]
      exact ⟨rfl, iff_of_true (encS_odd _ _ _ _) rfl⟩
    rw [if_neg h3_5]
    by_cases h3_6 : ts.getD 0 "" = "sh"
    · rw [if_pos h3_6]
      have hrec : recognisedTokens ts = true := by
        simp only [recognisedTokens, hl3, h3_6]
        decide
      rw [hrec]
      exact ⟨rfl, iff_of_true (encS_odd _ _ _ _) rfl⟩
    rw [if_neg h3_6]
    by_cases h3_7 : ts.getD 0 "" = "sw"
    · rw [if_pos h3_7]
      have hrec : recognisedTokens ts = true := by
        simp only [recognisedTokens, hl3, h3_7]
        decide
      rw [hrec]
      exact ⟨rfl, iff_of_true (encS_odd _ _ _ _) rfl⟩
    rw [if_neg h3_7]
    by_cases h3_8 : ts.getD 0 "" = "auipc"
    · rw [if_pos h3_8]
      have hrec : recognisedTokens ts = true := by
        simp only [recognisedTokens, hl3, h3_8]
        decide
      rw [hrec]
      exact ⟨rfl, iff_of_true (encU_odd _ _ _ (by decide)) rfl⟩
    rw [if_neg h3_8]
    by_cases h3_9 : ts.getD 0 "" = "lui"
    · rw [if_pos h3_9]
      have hrec : recognisedTokens ts = true := by
        simp only [recognisedTokens, hl3, h3_9]
        decide
      rw [hrec]
      exact ⟨rfl, iff_of_true (encU_odd _ _ _ (by decide)) rfl⟩
    rw [if_neg h3_9]
    by_cases h3_10 : ts.getD 0 "" = "jal"
    · rw [if_pos h3_10]
      have hrec : recognisedTokens ts = true := by
        simp only [recognisedTokens, hl3, h3_10]
        decide
      rw [hrec]
      exact ⟨rfl, iff_of_true (encJ_odd _ _) rfl⟩
    rw [if_neg h3_10]
    by_cases h3_11 : ts.getD 0 "" = "li"
    · rw [if_pos h3_11]
      have hrec : recognisedTokens ts = true := by
        simp only [recognisedTokens, hl3, h3_11]
        decide
      rw [hrec]
      exact ⟨rfl, iff_of_true (encI_odd _ _ _ _ _ (by decide)) rfl⟩
    rw [if_neg h3_11]
    by_cases h3_12 : ts.getD 0 "" = "mv"
    · rw [if_pos h3_12]
      have hrec : recognisedTokens ts = true := by
        simp only [recognisedTokens, hl3, h3_12]
        decide
      rw [hrec]
      exact ⟨rfl, iff_of_true (encR_odd _ _ _ _ _ _ (by decide)) rfl⟩
    rw [if_neg h3_12]
    have hrec : recognisedTokens ts = false := by
      simp only [recognisedTokens, hl3]
      simp_all [mnems4, mnems3, rList, iList, bList, memList, ujList, mvliList]
    rw [hrec]
    exact ⟨rfl, iff_of_false (by simp) (by decide)⟩
  rw [if_neg hl3]
  by_cases hl2 : ts.length = 2
  · rw [if_pos hl2]
    by_cases h2_0 : ts.getD 0 "" = "j"
    · rw [if_pos h2_0]
      have hrec : recognisedTokens ts = true := by
        simp only [recognisedTokens, hl2, h2_0]
        decide
      rw [hrec]
      exact ⟨rfl, iff_of_true (encJ_odd _ _) rfl⟩
    rw [if_neg h2_0]
    by_cases h2_1 : ts.getD 0 "" = "jr"
    · rw [if_pos h2_1]
      have hrec : recognisedTokens ts = true := by
        simp only [recognisedTokens, hl2, h2_1]
        decide
      rw [hrec]
      exact ⟨rfl, iff_of_true (encI_odd _ _ _ _ _ (by decide)) rfl⟩
    rw [if_neg h2_1]
    have hrec : recognisedTokens ts = false := by
      simp only [recognisedTokens, hl2]
      simp_all [mnems4, mnems3, rList, iList, bList, memList, ujList, mvliList]
    rw [hrec]
    exact ⟨rfl, iff_of_false (by simp) (by decide)⟩
  rw [if_neg hl2]
  by_cases hl1 : ts.length = 1
  · rw [if_pos hl1]
    by_cases h1_0 : ts.getD 0 "" = "ret"
    · rw [if_pos h1_0]
      have hrec : recognisedTokens ts = true := by
        simp only [recognisedTokens, hl1, h1_0]
        decide
      rw [hrec]
      exact ⟨rfl, iff_of_true (encI_odd _ _ _ _ _ (by decide)) rfl⟩
    rw [if_neg h1_0]
    have hrec : recognisedTokens ts = false := by
      simp only [recognisedTokens, hl1]
      simp_all [mnems4, mnems3, rList, iList, bList, memList, ujList, mvliList]
    rw [hrec]
    exact ⟨rfl, iff_of_false (by simp) (by decide)⟩
  rw [if_neg hl1]
  have hrec : recognisedTokens ts = false := by
    simp [recognisedTokens, hl4, hl3, hl2, hl1]
  rw [hrec]
  exact ⟨rfl, iff_of_false (by simp) (by decide)⟩
/-- A normalised line is recognised when the token list the two passes parse
(after the colon split and optional re-parse) is a recognised instruction. -/
def recLine0 (s : String) : Bool :=
  if (splitString s).2 ≠ "" then recognisedTokens (tokens4 (splitString s).2)
  else recognisedTokens (tokens4 s)

/-- A raw source line is recognised after comment stripping and comma
replacement. -/
def recognisedLine (s : String) : Bool := recLine0 (normalizeLine s)

/-- Pass one counts exactly the recognised lines. -/
lemma first_pass_count (s : String) (st : AsmState) :
    (first_pass s st).count1 = st.count1 + (if recLine0 s then 1 else 0) := by
  unfold first_pass recLine0
  by_cases h : (splitString s).2 ≠ ""
  · rw [if_pos h, if_pos h]
    exact fp_step _ _
  · rw [if_neg h, if_neg h]
    exact fp_step _ _

/-- Pass two counts exactly the recognised lines and emits exactly on them. -/
lemma assemble_count_emit (tbl : LabelTable) (c : Nat) (s : String) :
    (assemble_instruction tbl c s).1 = c + (if recLine0 s then 1 else 0) ∧
    (1 &&& (assemble_instruction tbl c s).2 ≠ 0 ↔ recLine0 s = true) := by
  unfold assemble_instruction recLine0
  by_cases h : (splitString s).2 ≠ ""
  · rw [if_pos h, if_pos h]
    exact asm_step tbl c _
  · rw [if_neg h, if_neg h]
    exact asm_step tbl c _

/-- Folding pass one over any line list adds the recognised-line count. -/
lemma foldFP (lines : List String) : ∀ st : AsmState,
    (lines.foldl (fun st l => first_pass (normalizeLine l) st) st).count1 =
      st.count1 + lines.countP recognisedLine := by
  induction lines with
  | nil => intro st; simp
  | cons l ls ih =>
    intro st
    rw [List.foldl_cons, ih, first_pass_count, List.countP_cons]
    unfold recognisedLine
    cases hb : recLine0 (normalizeLine l) <;> simp [hb] <;> omega

/-- Folding pass two over any line list adds the recognised-line count to the
counter and appends one output word per recognised line. -/
lemma foldSP (tbl : LabelTable) (lines : List String) : ∀ c out,
    (lines.foldl (passTwoStep tbl) (c, out)).1 = c + lines.countP recognisedLine ∧
    (lines.foldl (passTwoStep tbl) (c, out)).2.length =
      out.length + lines.countP recognisedLine := by
  induction lines with
  | nil => intro c out; simp
  | cons l ls ih =>
    intro c out
    rw [List.foldl_cons]
    simp only [passTwoStep]
    have ha := assemble_count_emit tbl c (normalizeLine l)
    by_cases hm : 1 &&& (assemble_instruction tbl c (normalizeLine l)).2 ≠ 0
    · have hrec : recLine0 (normalizeLine l) = true := ha.2.mp hm
      rw [if_pos hm]
      have h1 := ih (assemble_instruction tbl c (normalizeLine l)).1
        (out ++ [(assemble_instruction tbl c (normalizeLine l)).2])
      refine ⟨?_, ?_⟩
      · rw [h1.1, ha.1, List.countP_cons]
        simp [recognisedLine, hrec]
        omega
      · rw [h1.2, List.countP_cons, List.length_append]
        simp [recognisedLine, hrec]
        omega
    · have hrec : recLine0 (normalizeLine l) = false := by
        cases hb : recLine0 (normalizeLine l)
        · rfl
        · exact absurd (ha.2.mpr hb) hm
      rw [if_neg hm]
      have h1 := ih (assemble_instruction tbl c (normalizeLine l)).1 out
      refine ⟨?_, ?_⟩
      · rw [h1.1, ha.1, List.countP_cons]
        simp [recognisedLine, hrec]
      · rw [h1.2, List.countP_cons]
        simp [recognisedLine, hrec]

/-- Claim C2: for every input, pass one's final counter, pass two's final
counter, and the number of output lines pass two writes all equal the number
of recognised instructions in the input; blank, comment-only, label-only and
unrecognised lines contribute nothing. -/
theorem c2 (lines : List String) :
    (runFirstPass lines).count1 = lines.countP recognisedLine ∧
    (runSecondPass (runFirstPass lines).table lines).1 = lines.countP recognisedLine ∧
    (runSecondPass (runFirstPass lines).table lines).2.length = lines.countP recognisedLine := by
  refine ⟨?_, ?_, ?_⟩
  · have h := foldFP lines ⟨[], 0⟩
    simpa [runFirstPass] using h
  · have h := (foldSP (runFirstPass lines).table lines 0 []).1
    simpa [runSecondPass] using h
  · have h := (foldSP (runFirstPass lines).table lines 0 []).2
    simpa [runSecondPass] using h

end RiscvAsm
